import Mathlib

/-!
Shallow embedding of the ecosystem-simulation engine of the repository
`rusty-vegetables-and-hummus` (cell grid, material layers, event kernels),
together with theorems settling the claims C1..C10.

Conventions of the embedding:
* Rust `f32` values are modelled as exact rationals (`ℚ`); floating-point
  rounding is not modelled.
* The grid is a total function `CellIndex → Cell`; the source stores a
  `Vec<Vec<Cell>>` of side `AREA_SIDE_LENGTH` (256 in `constants.rs`).
  The side length is kept as an explicit parameter `N` so that the boundary
  logic of `Cell::get_neighbors` can be stated for every size; every theorem
  holds in particular for `N = 256`.
* Transcendental sub-expressions of the source (`sin`, `asin`, `atan`, `ln`,
  `exp`, square roots, and the thread-local RNG draws) cannot be represented
  exactly in a computable rational embedding.  Each such value is taken as an
  explicit parameter of the embedded function, with a doc comment naming the
  source expression it stands for; every theorem below quantifies over those
  parameters, so the theorems hold whatever the transcendental values are.
-/

namespace RustyVeg

/-- `constants.rs`: `CELL_SIDE_LENGTH: f32 = 10.0` (meters). -/
def CELL_SIDE_LENGTH : ℚ := 10

/-- `constants.rs`: `DEFAULT_BEDROCK_HEIGHT: f32 = 100.0` (meters). -/
def DEFAULT_BEDROCK_HEIGHT : ℚ := 100

/-- `constants.rs`: `GRASS_DENSITY: f32 = 1.0` (kg/m^3). -/
def GRASS_DENSITY : ℚ := 1

/-- `constants.rs`: `PERCENT_SUNNY_DAYS: f32 = 0.75`. -/
def PERCENT_SUNNY_DAYS : ℚ := 3/4

/-- Modelled from the spec: the constant `LIGHTNING_BEDROCK_DISPLACEMENT_VOLUME`
is referenced by `src/events/lightning.rs` but its definition is not among the
source files; the spec gives `V = LIGHTNING_DISPLACEMENT_VOLUME (typ. 4 m³)`. -/
def LIGHTNING_BEDROCK_DISPLACEMENT_VOLUME : ℚ := 4

/-- `constants.rs`: `AVERAGE_MONTHLY_TEMPERATURES` (celsius). -/
def AVERAGE_MONTHLY_TEMPERATURES : Fin 12 → ℚ :=
  ![-2, -(4/5), 14/5, 44/5, 143/10, 96/5, 23, 223/10, 187/10, 25/2, 67/10, 3/2]

/-- `constants.rs`: `AVERAGE_SUNLIGHT_HOURS`. -/
def AVERAGE_SUNLIGHT_HOURS : Fin 12 → ℚ :=
  ![27/4, 27/4, 33/4, 39/4, 21/2, 45/4, 45/4, 21/2, 39/4, 9, 15/2, 15/2]

/-- `constants.rs`: `AVERAGE_MONTHLY_RAINFALL` (mm per month). -/
def AVERAGE_MONTHLY_RAINFALL : Fin 12 → ℚ :=
  ![96, 81, 111, 99, 86, 91, 87, 103, 93, 106, 88, 110]

/-- `src/ecology.rs`: `CellIndex { x: usize, y: usize }`. -/
structure CellIndex where
  x : ℕ
  y : ℕ
deriving DecidableEq, Repr

/-- `src/ecology.rs`: `Trees { number_of_plants: u32, plant_height_sum: f32,
plant_age_sum: f32 }`. -/
structure Trees where
  number_of_plants : ℕ
  plant_height_sum : ℚ
  plant_age_sum : ℚ
deriving DecidableEq, Repr

/-- `src/ecology.rs`: `Bushes`, same fields as `Trees`. -/
structure Bushes where
  number_of_plants : ℕ
  plant_height_sum : ℚ
  plant_age_sum : ℚ
deriving DecidableEq, Repr

/-- `src/ecology.rs`: `Grasses { coverage_density: f32 }`. -/
structure Grasses where
  coverage_density : ℚ
deriving DecidableEq, Repr

/-- Modelled from the spec: `Grasses::init()` is called by
`Grasses::clone_from_cell` in `src/events/vegetation.rs` but is not among the
source files; the spec's data model gives grasses a coverage in `[0,1]` and an
empty population has coverage `0`. -/
def Grasses.initG : Grasses := ⟨0⟩

/-- `src/ecology.rs`: a `Cell`.  The material layers `Bedrock`, `Rock`, `Sand`,
`Humus` are single-field records `{ height: f32 }` and `DeadVegetation` is
`{ biomass: f32 }` in the source; they are collapsed here to their unique
rational field inside the `Option`.  `hours_of_sunlight: [f32; 12]` is the
per-month illumination cache used by `src/ecology/illumination.rs`. -/
structure Cell where
  bedrock : Option ℚ
  rock : Option ℚ
  sand : Option ℚ
  humus : Option ℚ
  trees : Option Trees
  bushes : Option Bushes
  grasses : Option Grasses
  dead_vegetation : Option ℚ
  soil_moisture : ℚ
  hours_of_sunlight : Fin 12 → ℚ

/-- `Cell::init`: every field empty/zero. -/
def Cell.initC : Cell :=
  { bedrock := none, rock := none, sand := none, humus := none,
    trees := none, bushes := none, grasses := none, dead_vegetation := none,
    soil_moisture := 0, hours_of_sunlight := fun _ => 0 }

/-- The per-cell state of `Ecosystem::init()`: bedrock at
`DEFAULT_BEDROCK_HEIGHT`, everything else absent. -/
def Cell.defaultCell : Cell :=
  { Cell.initC with bedrock := some DEFAULT_BEDROCK_HEIGHT }

/-- `src/ecology.rs`: `Ecosystem { cells }`, as a total function on indices. -/
structure Ecosystem where
  cells : CellIndex → Cell

/-- Writing one cell of the grid (`ecosystem[index] = …` via `IndexMut`). -/
def Ecosystem.set (e : Ecosystem) (i : CellIndex) (c : Cell) : Ecosystem :=
  ⟨fun j => if j = i then c else e.cells j⟩

/-- `Ecosystem::init()`: every cell at the default bedrock height. -/
def Ecosystem.initE : Ecosystem := ⟨fun _ => Cell.defaultCell⟩

/-- `src/events.rs`: the `Events` enum (the `events/` kernels additionally
return the `Wind` variant from `src/events/wind.rs`). -/
inductive Events where
  | Rainfall | ThermalStress | Lightning | RockSlide | SandSlide
  | HumusSlide | Fire | Vegetation | Wind
deriving DecidableEq, Repr

/-! ### Layer accessors (`src/ecology.rs`, `impl Cell`) -/

/-- `Cell::add_bedrock`: add to the layer if present, else create it. -/
def Cell.add_bedrock (c : Cell) (h : ℚ) : Cell :=
  match c.bedrock with
  | some b => { c with bedrock := some (b + h) }
  | none => { c with bedrock := some h }

/-- `Cell::add_rocks`. -/
def Cell.add_rocks (c : Cell) (h : ℚ) : Cell :=
  match c.rock with
  | some b => { c with rock := some (b + h) }
  | none => { c with rock := some h }

/-- `Cell::add_sand`. -/
def Cell.add_sand (c : Cell) (h : ℚ) : Cell :=
  match c.sand with
  | some b => { c with sand := some (b + h) }
  | none => { c with sand := some h }

/-- `Cell::add_humus`. -/
def Cell.add_humus (c : Cell) (h : ℚ) : Cell :=
  match c.humus with
  | some b => { c with humus := some (b + h) }
  | none => { c with humus := some h }

/-- `Cell::add_dead_vegetation` (biomass in kg). -/
def Cell.add_dead_vegetation (c : Cell) (b : ℚ) : Cell :=
  match c.dead_vegetation with
  | some d => { c with dead_vegetation := some (d + b) }
  | none => { c with dead_vegetation := some b }

/-- `Cell::remove_bedrock`: `bedrock.height -= height` when the layer is
present, no-op when absent.  (The source subtracts unconditionally; there is
no clamping at zero.) -/
def Cell.remove_bedrock (c : Cell) (h : ℚ) : Cell :=
  match c.bedrock with
  | some b => { c with bedrock := some (b - h) }
  | none => c

/-- `Cell::remove_sand`. -/
def Cell.remove_sand (c : Cell) (h : ℚ) : Cell :=
  match c.sand with
  | some b => { c with sand := some (b - h) }
  | none => c

/-- `Cell::remove_rocks`. -/
def Cell.remove_rocks (c : Cell) (h : ℚ) : Cell :=
  match c.rock with
  | some b => { c with rock := some (b - h) }
  | none => c

/-- `Cell::remove_humus`. -/
def Cell.remove_humus (c : Cell) (h : ℚ) : Cell :=
  match c.humus with
  | some b => { c with humus := some (b - h) }
  | none => c

/-- Modelled from the spec: `Cell::remove_all_dead_vegetation()` is called by
`src/events/vegetation.rs` but is not among the source files; the spec lists
it as a per-cell operation that clears the dead-vegetation store. -/
def Cell.remove_all_dead_vegetation (c : Cell) : Cell :=
  { c with dead_vegetation := none }

/-- `Cell::get_bedrock_height`: absent layer reads as 0. -/
def Cell.get_bedrock_height (c : Cell) : ℚ := c.bedrock.getD 0

/-- `Cell::get_sand_height`. -/
def Cell.get_sand_height (c : Cell) : ℚ := c.sand.getD 0

/-- `Cell::get_rock_height`. -/
def Cell.get_rock_height (c : Cell) : ℚ := c.rock.getD 0

/-- `Cell::get_humus_height`. -/
def Cell.get_humus_height (c : Cell) : ℚ := c.humus.getD 0

/-- `Cell::get_dead_vegetation_biomass`. -/
def Cell.get_dead_vegetation_biomass (c : Cell) : ℚ := c.dead_vegetation.getD 0

/-- `Cell::get_height`: sum of the (present) material layer heights. -/
def Cell.get_height (c : Cell) : ℚ :=
  c.bedrock.getD 0 + c.rock.getD 0 + c.sand.getD 0 + c.humus.getD 0

/-- `Cell::set_height_of_bedrock`. -/
def Cell.set_height_of_bedrock (c : Cell) (h : ℚ) : Cell :=
  { c with bedrock := some h }

/-- `Cell::get_monthly_temperature`: table value minus the lapse rate
`0.0065 · height`. -/
def Cell.get_monthly_temperature (c : Cell) (month : Fin 12) : ℚ :=
  AVERAGE_MONTHLY_TEMPERATURES month - (13/2000) * c.get_height

/-- `Cell::get_monthly_soil_moisture`: the cell's stored water distributed by
the monthly rainfall pattern (`annual_rainfall` is the sum of the table). -/
def Cell.get_monthly_soil_moisture (c : Cell) (month : Fin 12) : ℚ :=
  c.soil_moisture *
    (AVERAGE_MONTHLY_RAINFALL month / ∑ m : Fin 12, AVERAGE_MONTHLY_RAINFALL m)

/-! ### Neighbors (`src/ecology.rs`, `Cell::get_neighbors`) -/

/-- `src/ecology.rs`: the `Neighbors` record of eight optional indices. -/
structure Neighbors where
  northwest : Option CellIndex
  north : Option CellIndex
  northeast : Option CellIndex
  west : Option CellIndex
  east : Option CellIndex
  southwest : Option CellIndex
  south : Option CellIndex
  southeast : Option CellIndex

/-- `Cell::get_neighbors`, with the grid side `AREA_SIDE_LENGTH` as the
parameter `N`: each direction is present exactly under the source's bound
checks (`x > 0`, `x < N−1`, `y > 0`, `y < N−1`). -/
def Cell.get_neighbors (N : ℕ) (i : CellIndex) : Neighbors :=
  { west := if 0 < i.x then some ⟨i.x - 1, i.y⟩ else none,
    northwest := if 0 < i.x ∧ 0 < i.y then some ⟨i.x - 1, i.y - 1⟩ else none,
    southwest := if 0 < i.x ∧ i.y < N - 1 then some ⟨i.x - 1, i.y + 1⟩ else none,
    east := if i.x < N - 1 then some ⟨i.x + 1, i.y⟩ else none,
    northeast := if i.x < N - 1 ∧ 0 < i.y then some ⟨i.x + 1, i.y - 1⟩ else none,
    southeast := if i.x < N - 1 ∧ i.y < N - 1 then some ⟨i.x + 1, i.y + 1⟩ else none,
    north := if 0 < i.y then some ⟨i.x, i.y - 1⟩ else none,
    south := if i.y < N - 1 then some ⟨i.x, i.y + 1⟩ else none }

/-- `Neighbors::as_array`: the fixed order `[nw, n, ne, w, e, sw, s, se]`. -/
def Neighbors.as_array (n : Neighbors) : List (Option CellIndex) :=
  [n.northwest, n.north, n.northeast, n.west, n.east, n.southwest, n.south, n.southeast]

/-- The flattened neighbor list (`as_array().into_iter().flatten()`). -/
def neighborsList (N : ℕ) (i : CellIndex) : List CellIndex :=
  (Cell.get_neighbors N i).as_array.reduceOption

/-! ### Slopes and the critical-angle test

`Ecosystem::get_slope_between_points` returns
`(E(p)−E(q)) / ‖p−q‖` where the positions are `(x, y, height)`, so the slope
is `Δh/√(Δx²+Δy²+Δh²)`, an irrational quantity.  The granular-slide kernels
compare `Ecosystem::get_angle(slope) = sign(slope)·asin(|slope|)` (degrees)
against a critical angle.  Since `asin` is strictly monotone, the test
`get_angle(slope) ≥ critical_angle` is equivalent to `slope ≥ sc` for
`sc = sin(critical_angle·π/180)`, and for `0 < sc < 1` this is equivalent to
the rational condition `0 < Δh ∧ sc²·(Δx²+Δy²+Δh²) ≤ Δh²` (square both sides;
the sign of the slope is the sign of `Δh`).  The transcendental `sc` is kept
as a parameter throughout. -/

/-- The squared horizontal distance `Δx² + Δy²` between two cell indices. -/
def horizDistSq (i j : CellIndex) : ℚ :=
  (((i.x : ℤ) - j.x)^2 + ((i.y : ℤ) - j.y)^2 : ℤ)

/-- Height difference `E(i) − E(j)` between two cells. -/
def heightDiff (e : Ecosystem) (i j : CellIndex) : ℚ :=
  (e.cells i).get_height - (e.cells j).get_height

/-- The source's criticality test `get_angle(slope(i,j)) ≥ critical_angle`,
phrased rationally (see the section comment above). -/
def isCriticalSlope (sc : ℚ) (dh d2 : ℚ) : Prop :=
  0 < dh ∧ sc^2 * (d2 + dh^2) ≤ dh^2

instance (sc dh d2 : ℚ) : Decidable (isCriticalSlope sc dh d2) :=
  inferInstanceAs (Decidable (_ ∧ _))

/-- The neighbors of `i` whose descending slope meets the critical angle
(the `critical_neighbors` map of the slide kernels, as a list in the
`as_array` order). -/
def criticalNeighborsList (N : ℕ) (sc : ℚ) (e : Ecosystem) (i : CellIndex) :
    List CellIndex :=
  (neighborsList N i).filter fun j =>
    decide (isCriticalSlope sc (heightDiff e i j) (horizDistSq i j))

/-! ### Granular slides (`src/events/sand_slide.rs`, `rock_slide.rs`,
`humus_slide.rs`) -/

/-- `Events::compute_sand_height_to_slide`.  The parameter `ideal` stands for
`Events::compute_ideal_slide_height(origin_pos, target_pos, CRITICAL_ANGLE_SAND)`
whose value `z_target + √(s_c²·((Δx)²+(Δy)²)/(1−s_c²))` contains a square root
of the transcendental critical slope and is taken abstractly. -/
def compute_sand_height_to_slide (e : Ecosystem) (origin : CellIndex)
    (ideal : ℚ) : ℚ :=
  let cell := e.cells origin
  let sand_height := cell.get_sand_height
  if 0 < sand_height then
    let non_sand_height := cell.get_height - sand_height
    if ideal ≤ non_sand_height then sand_height / 2
    else ((non_sand_height + sand_height) - ideal) / 2
  else 0

/-- `Events::compute_rock_height_to_slide`; unlike the sand version, the
source guards on the *presence* of the rock layer (`if let Some(rock)`), not
on its height being positive. -/
def compute_rock_height_to_slide (e : Ecosystem) (origin : CellIndex)
    (ideal : ℚ) : ℚ :=
  let cell := e.cells origin
  match cell.rock with
  | some rock_height =>
    let non_rock_height := cell.get_height - rock_height
    if ideal ≤ non_rock_height then rock_height / 2
    else ((non_rock_height + rock_height) - ideal) / 2
  | none => 0

/-- `Events::compute_humus_height_to_slide` (guards on `humus_height > 0.0`
like the sand version). -/
def compute_humus_height_to_slide (e : Ecosystem) (origin : CellIndex)
    (ideal : ℚ) : ℚ :=
  let cell := e.cells origin
  let humus_height := cell.get_humus_height
  if 0 < humus_height then
    let non_humus_height := cell.get_height - humus_height
    if ideal ≤ non_humus_height then humus_height / 2
    else ((non_humus_height + humus_height) - ideal) / 2
  else 0

/-- `Events::apply_sand_slide_event`.  Abstracted source randomness:
`pick` chooses the slide target from the critical-neighbor list (the source
draws a uniform random number and walks the slope-weighted probabilities of a
`HashMap` in arbitrary iteration order, so any critical neighbor can be
selected; a `none` result models the draw falling through the loop, in which
case the source returns `None` without moving anything).  `ideal` is as in
`compute_sand_height_to_slide`. -/
def apply_sand_slide_event (N : ℕ) (sc : ℚ)
    (pick : List CellIndex → Option CellIndex) (ideal : ℚ)
    (e : Ecosystem) (i : CellIndex) : Ecosystem × Option (Events × CellIndex) :=
  let crit := criticalNeighborsList N sc e i
  if crit.isEmpty then (e, none)
  else
    match pick crit with
    | some neighbor =>
      let sand_height := compute_sand_height_to_slide e i ideal
      let e := e.set i ((e.cells i).remove_sand sand_height)
      let e := e.set neighbor ((e.cells neighbor).add_sand sand_height)
      (e, some (Events.SandSlide, neighbor))
    | none => (e, none)

/-- `Events::apply_rock_slide_event` (structure identical to the sand slide,
with the rock layer and `CRITICAL_ANGLE_ROCK`). -/
def apply_rock_slide_event (N : ℕ) (sc : ℚ)
    (pick : List CellIndex → Option CellIndex) (ideal : ℚ)
    (e : Ecosystem) (i : CellIndex) : Ecosystem × Option (Events × CellIndex) :=
  let crit := criticalNeighborsList N sc e i
  if crit.isEmpty then (e, none)
  else
    match pick crit with
    | some neighbor =>
      let rock_height := compute_rock_height_to_slide e i ideal
      let e := e.set i ((e.cells i).remove_rocks rock_height)
      let e := e.set neighbor ((e.cells neighbor).add_rocks rock_height)
      (e, some (Events.RockSlide, neighbor))
    | none => (e, none)

/-- `Events::apply_humus_slide_event`. -/
def apply_humus_slide_event (N : ℕ) (sc : ℚ)
    (pick : List CellIndex → Option CellIndex) (ideal : ℚ)
    (e : Ecosystem) (i : CellIndex) : Ecosystem × Option (Events × CellIndex) :=
  let crit := criticalNeighborsList N sc e i
  if crit.isEmpty then (e, none)
  else
    match pick crit with
    | some neighbor =>
      let humus_height := compute_humus_height_to_slide e i ideal
      let e := e.set i ((e.cells i).remove_humus humus_height)
      let e := e.set neighbor ((e.cells neighbor).add_humus humus_height)
      (e, some (Events.HumusSlide, neighbor))
    | none => (e, none)

/-! ### Lightning (`src/events/lightning.rs`) and the kill helpers
(`src/events.rs`) -/

/-- `Events::kill_trees`: zero out the population counts and add the estimated
biomass to dead vegetation — the `trees` field stays `Some`.  The biomass
estimator (`Trees::estimate_biomass`, a red-maple allometric formula built
from `ln`/`exp`/powers) is transcendental and passed as `treesBiomass`. -/
def kill_trees (treesBiomass : Trees → ℚ) (c : Cell) : Cell :=
  match c.trees with
  | some trees =>
    let biomass := treesBiomass trees
    Cell.add_dead_vegetation { c with trees := some ⟨0, 0, 0⟩ } biomass
  | none => c

/-- `Events::kill_bushes` (same shape as `kill_trees`). -/
def kill_bushes (bushesBiomass : Bushes → ℚ) (c : Cell) : Cell :=
  match c.bushes with
  | some bushes =>
    let biomass := bushesBiomass bushes
    Cell.add_dead_vegetation { c with bushes := some ⟨0, 0, 0⟩ } biomass
  | none => c

/-- `Events::kill_grasses`: adds `coverage_density · S² · GRASS_DENSITY` to
dead vegetation; the `grasses` field (and its coverage) is left unchanged. -/
def kill_grasses (c : Cell) : Cell :=
  match c.grasses with
  | some grasses =>
    c.add_dead_vegetation
      (grasses.coverage_density * CELL_SIDE_LENGTH * CELL_SIDE_LENGTH * GRASS_DENSITY)
  | none => c

/-- The mutations `apply_lightning_event_helper` applies to the struck cell
itself: kill the three plant populations, subtract the lost bedrock height,
then add the per-cell shares of rock and sand.  The source's
`bedrock.as_mut().unwrap()` panics when the bedrock layer is absent; the
embedding maps over the `Option` and the theorems assume the layer is
present. -/
def lightningStruckCell (treesBiomass : Trees → ℚ) (bushesBiomass : Bushes → ℚ)
    (lost_height height_per_cell : ℚ) (c : Cell) : Cell :=
  let c := kill_grasses (kill_bushes bushesBiomass (kill_trees treesBiomass c))
  let c := { c with bedrock := c.bedrock.map (· - lost_height) }
  (c.add_rocks (height_per_cell / 2)).add_sand (height_per_cell / 2)

/-- `Events::apply_lightning_event_helper`.  `rand` is the thread-local RNG
draw and `prob` the strike probability (`compute_lightning_damage_probability`
evaluates `exp` of the curvature and is not embedded; the helper only compares
`rand > prob`). -/
def apply_lightning_event_helper (N : ℕ) (treesBiomass : Trees → ℚ)
    (bushesBiomass : Bushes → ℚ) (rand prob : ℚ) (e : Ecosystem)
    (i : CellIndex) : Ecosystem × Option (Events × CellIndex) :=
  if prob < rand then (e, none)
  else
    let lost_height :=
      LIGHTNING_BEDROCK_DISPLACEMENT_VOLUME / (CELL_SIDE_LENGTH * CELL_SIDE_LENGTH)
    let neighbors := neighborsList N i
    let num_affected_cells := neighbors.length + 1
    let volume_per_cell :=
      LIGHTNING_BEDROCK_DISPLACEMENT_VOLUME / (num_affected_cells : ℚ)
    let height_per_cell := volume_per_cell / (CELL_SIDE_LENGTH * CELL_SIDE_LENGTH)
    let e := e.set i (lightningStruckCell treesBiomass bushesBiomass lost_height
      height_per_cell (e.cells i))
    let e := neighbors.foldl
      (fun acc j =>
        acc.set j (((acc.cells j).add_rocks (height_per_cell / 2)).add_sand
          (height_per_cell / 2)))
      e
    (e, none)

/-! ### Vegetation kernel writeback (`src/events/vegetation.rs`,
`Individualized::set_in_cell`) -/

/-- `<Trees as Individualized>::set_in_cell`: store the population if its
count is positive, remove it otherwise. -/
def Trees.set_in_cell (t : Trees) (c : Cell) : Cell :=
  if 0 < t.number_of_plants then { c with trees := some t }
  else { c with trees := none }

/-- `<Bushes as Individualized>::set_in_cell`. -/
def Bushes.set_in_cell (b : Bushes) (c : Cell) : Cell :=
  if 0 < b.number_of_plants then { c with bushes := some b }
  else { c with bushes := none }

/-! ### Plant viability (`src/events/vegetation.rs`) -/

/-- The associated constants of the `Vegetation` trait for one species,
plus its `get_illumination_coverage_constant` modifier (for bushes and
grasses the modifier multiplies allometric densities of the taller layers,
which are transcendental estimates; it is carried as a function field and the
theorems quantify over it; for trees it is constantly 1). -/
structure VegetationParams where
  temperature_limit_min : ℚ
  temperature_limit_max : ℚ
  temperature_ideal_min : ℚ
  temperature_ideal_max : ℚ
  moisture_limit_min : ℚ
  moisture_limit_max : ℚ
  moisture_ideal_min : ℚ
  moisture_ideal_max : ℚ
  illumination_limit_min : ℚ
  illumination_limit_max : ℚ
  illumination_ideal_min : ℚ
  illumination_ideal_max : ℚ
  illumination_coverage : Cell → ℚ

/-- The `impl Vegetation for Trees` constants (red maple); trees are not
shaded, so the coverage modifier is constantly 1. -/
def treesParams : VegetationParams :=
  { temperature_limit_min := -10, temperature_ideal_min := 0,
    temperature_ideal_max := 35, temperature_limit_max := 38,
    moisture_limit_min := 1/10, moisture_ideal_min := 1/5,
    moisture_ideal_max := 2/5, moisture_limit_max := 4/5,
    illumination_limit_min := 4, illumination_ideal_min := 6,
    illumination_ideal_max := 10, illumination_limit_max := 14,
    illumination_coverage := fun _ => 1 }

/-- The `impl Vegetation for Grasses` constants (switchgrass; the source lists
`TEMPERATURE_IDEAL_MIN = 38.0` above `IDEAL_MAX = 20.0`, embedded verbatim).
`illumMod` stands for its coverage modifier built from tree/bush allometric
densities. -/
def grassesParams (illumMod : Cell → ℚ) : VegetationParams :=
  { temperature_limit_min := -5, temperature_ideal_max := 20,
    temperature_limit_max := 30, temperature_ideal_min := 38,
    moisture_limit_min := 1/5, moisture_ideal_min := 2/5,
    moisture_ideal_max := 3/5, moisture_limit_max := 4/5,
    illumination_limit_min := 4, illumination_ideal_min := 6,
    illumination_ideal_max := 8, illumination_limit_max := 12,
    illumination_coverage := illumMod }

/-- The five-branch piecewise shape shared by
`compute_temperature_viability`, `compute_moisture_viability` and
`compute_illumination_viability` (a Rust `match` with guards
`v < limit_min`, `v < ideal_min`, `v ≤ ideal_max`, `v ≤ limit_max`, `_`). -/
def viabilityPiecewise (lmin imin imax lmax v : ℚ) : ℚ :=
  if v < lmin then -1
  else if v < imin then (v - lmin) / (imin - lmin)
  else if v ≤ imax then 1
  else if v ≤ lmax then (v - lmax) / (imax - lmax)
  else -1

/-- `Events::compute_temperature_viability`. -/
def compute_temperature_viability (p : VegetationParams) (e : Ecosystem)
    (i : CellIndex) (month : Fin 12) : ℚ :=
  viabilityPiecewise p.temperature_limit_min p.temperature_ideal_min
    p.temperature_ideal_max p.temperature_limit_max
    ((e.cells i).get_monthly_temperature month)

/-- `Events::compute_moisture_viability`: converts the cell's monthly water
volume to a fraction of the humus-layer volume (zero when that volume is
zero). -/
def compute_moisture_viability (p : VegetationParams) (e : Ecosystem)
    (i : CellIndex) (month : Fin 12) : ℚ :=
  let cell := e.cells i
  let moisture_volume := cell.get_monthly_soil_moisture month
  let height := cell.get_humus_height
  let cell_volume := CELL_SIDE_LENGTH * CELL_SIDE_LENGTH * height * 1000
  let moisture := if cell_volume = 0 then 0 else moisture_volume / cell_volume
  viabilityPiecewise p.moisture_limit_min p.moisture_ideal_min
    p.moisture_ideal_max p.moisture_limit_max moisture

/-- `Ecosystem::estimate_illumination` as called by the vegetation kernel
(`src/ecology.rs`): the placeholder table estimate
`AVERAGE_SUNLIGHT_HOURS[month]`. -/
def estimate_illumination (_e : Ecosystem) (_i : CellIndex) (month : Fin 12) : ℚ :=
  AVERAGE_SUNLIGHT_HOURS month

/-- `Events::compute_illumination_viability`. -/
def compute_illumination_viability (p : VegetationParams) (e : Ecosystem)
    (i : CellIndex) (month : Fin 12) : ℚ :=
  let modifier := p.illumination_coverage (e.cells i)
  let illumination := estimate_illumination e i month * modifier
  viabilityPiecewise p.illumination_limit_min p.illumination_ideal_min
    p.illumination_ideal_max p.illumination_limit_max illumination

/-- `Events::compute_viability`: the minimum of the three sub-viabilities
(Liebig's law). -/
def compute_viability (p : VegetationParams) (e : Ecosystem) (i : CellIndex)
    (month : Fin 12) : ℚ :=
  min (compute_temperature_viability p e i month)
    (min (compute_moisture_viability p e i month)
      (compute_illumination_viability p e i month))

/-- `Events::compute_vigor_and_stress`: vigor is the mean viability over the
months whose *base-table* temperature exceeds 5 °C; stress is the sum of the
(up to) four smallest negative viabilities divided by the number of *all*
negative viabilities (0 when there are none).  The source's in-place
`sort_by(partial_cmp)` is the ascending insertion sort. -/
def compute_vigor_and_stress (p : VegetationParams) (e : Ecosystem)
    (i : CellIndex) : ℚ × ℚ :=
  let viabilities : List ℚ := (List.finRange 12).map (compute_viability p e i)
  let growing_viabilities : List ℚ :=
    ((List.finRange 12).filter fun m =>
      decide (5 < AVERAGE_MONTHLY_TEMPERATURES m)).map (compute_viability p e i)
  let vigor := growing_viabilities.sum / (growing_viabilities.length : ℚ)
  let negative_viabilities := viabilities.filter fun v => decide (v < 0)
  let sorted := negative_viabilities.insertionSort (· ≤ ·)
  let stress :=
    if negative_viabilities.isEmpty then 0
    else (sorted.take 4).sum / (negative_viabilities.length : ℚ)
  (vigor, stress)

/-! ### Grasses kernel (`src/events/vegetation.rs`,
`Events::apply_grasses_event`) -/

/-- `constants` of the grasses kernel: `GRASSES_VIGOR_GROWTH = 0.5`. -/
def GRASSES_VIGOR_GROWTH : ℚ := 1/2

/-- `GRASSES_STRESS_DEATH = 0.1`. -/
def GRASSES_STRESS_DEATH : ℚ := 1/10

/-- Modelled from the spec: `Grasses::estimate_biomass_for_coverage_density`
is called by the grasses kernel but is not among the source files; the spec
says grasses contribute `coverage_density · S² · GRASS_DENSITY` biomass. -/
def Grasses.estimate_biomass_for_coverage_density (coverage : ℚ) : ℚ :=
  coverage * CELL_SIDE_LENGTH * CELL_SIDE_LENGTH * GRASS_DENSITY

/-- `Events::apply_grasses_event`: coverage is adjusted from vigor/stress,
clamped at 1 (excess converted to dead vegetation), and the population is
stored only when the resulting coverage is positive.  (The source's
`assert!(dead_biomass > 0.0)` checks are not represented.) -/
def apply_grasses_event (p : VegetationParams) (e : Ecosystem) (i : CellIndex) :
    Ecosystem × Option (Events × CellIndex) :=
  let grasses := ((e.cells i).grasses).getD Grasses.initG
  let vs := compute_vigor_and_stress p e i
  let vigor := vs.1
  let stress := vs.2
  let new_coverage := grasses.coverage_density
  let step1 : ℚ × Ecosystem :=
    if stress < 0 then
      let death_coverage := (-stress) * GRASSES_STRESS_DEATH
      let dead_biomass := Grasses.estimate_biomass_for_coverage_density death_coverage
      (new_coverage + death_coverage,
        e.set i ((e.cells i).add_dead_vegetation dead_biomass))
    else if 0 < vigor then (new_coverage + vigor * GRASSES_VIGOR_GROWTH, e)
    else (new_coverage, e)
  let step2 : ℚ × Ecosystem :=
    if 1 < step1.1 then
      let death_coverage := step1.1 - 1
      let dead_biomass := Grasses.estimate_biomass_for_coverage_density death_coverage
      (1, step1.2.set i ((step1.2.cells i).add_dead_vegetation dead_biomass))
    else step1
  let new_grasses : Option Grasses := if 0 < step2.1 then some ⟨step2.1⟩ else none
  (step2.2.set i { step2.2.cells i with grasses := new_grasses }, none)

/-! ### Wind (`src/events/wind.rs`) -/

/-- `CARRYING_CAPACITY: f32 = 0.2`. -/
def CARRYING_CAPACITY : ℚ := 1/5

/-- `REPTATION_HEIGHT: f32 = 0.1`. -/
def REPTATION_HEIGHT : ℚ := 1/10

/-- `Cell::estimate_vegetation_density`: tree density + bush density + grass
coverage.  `Cell::estimate_tree_density` and `estimate_bushes_density`
evaluate allometric crown-area formulas (`powf`, `ln`, `exp`), which are
transcendental; they are taken as the parameters `treeDensity` and
`bushDensity`. -/
def Cell.estimate_vegetation_density (treeDensity : Trees → ℚ)
    (bushDensity : Bushes → ℚ) (c : Cell) : ℚ :=
  (c.trees.map treeDensity).getD 0 + (c.bushes.map bushDensity).getD 0 +
    (c.grasses.map Grasses.coverage_density).getD 0

/-- `get_bounce_probability(ecosystem, index, wind_shadowing)`: clamp to
`[0,1]` of `shadow + f_S + f_V` with `f_S = 0.4` when the cell at `index` has
no sand and `0.6` otherwise, and `f_V = 1 − min(density/3, 1)` of the cell at
`index`. -/
def get_bounce_probability (treeDensity : Trees → ℚ) (bushDensity : Bushes → ℚ)
    (e : Ecosystem) (i : CellIndex) (wind_shadowing : ℚ) : ℚ :=
  let cell := e.cells i
  let sand_height := cell.get_sand_height
  let fs : ℚ := if sand_height = 0 then 2/5 else 3/5
  let vegetation_density :=
    min (cell.estimate_vegetation_density treeDensity bushDensity / 3) 1
  let fv := 1 - vegetation_density
  max (min (wind_shadowing + fs + fv) 1) 0

/-- The slope comparison `slope(t,a) ≥ slope(t,b)` used by
`get_two_steepest_neighbors` when sorting, on the key `(Δh, Δx²+Δy²)` of each
slope: for the nonnegative slopes kept by the filter,
`Δhₐ/√(d²ₐ+Δhₐ²) ≥ Δhᵦ/√(d²ᵦ+Δhᵦ²) ⟺ Δhᵦ²·d²ₐ ≤ Δhₐ²·d²ᵦ`
(square both sides and cancel the common term `Δhₐ²Δhᵦ²`). -/
def slopeKeyGE (a b : ℚ × ℚ) : Prop := b.1^2 * a.2 ≤ a.1^2 * b.2

instance (a b : ℚ × ℚ) : Decidable (slopeKeyGE a b) :=
  inferInstanceAs (Decidable (_ ≤ _))

/-- `get_two_steepest_neighbors`: the neighbors with nonnegative slope from
`index` (in exact arithmetic a slope is never NaN, so the source's
`!slope.is_nan()` filter is vacuous; `slope ≥ 0 ⟺ Δh ≥ 0`), sorted by
descending slope; returns the first two with their slope keys. -/
def get_two_steepest_neighbors (N : ℕ) (e : Ecosystem) (i : CellIndex) :
    Option ((ℚ × ℚ) × CellIndex) × Option ((ℚ × ℚ) × CellIndex) :=
  let slopes : List ((ℚ × ℚ) × CellIndex) :=
    (neighborsList N i).filterMap fun j =>
      let dh := heightDiff e i j
      if 0 ≤ dh then some ((dh, horizDistSq i j), j) else none
  let sorted := slopes.insertionSort fun a b => slopeKeyGE a.1 b.1
  (sorted.head?, sorted.tail.head?)

/-- `perform_reptation`: move `min(REPTATION_HEIGHT, target_sand − moved)`
sand from the target to its up-to-two steepest descending neighbors,
proportionally to their slopes.  `reptShare` stands for the irrational ratio
`slope_1/(slope_1+slope_2)`; the source's degenerate test
`slope_1 + slope_2 == 0.0` holds (for the nonnegative slopes involved) exactly
when both height differences are zero, in which case the ratio is 0.5. -/
def perform_reptation (N : ℕ) (reptShare : ℚ) (e : Ecosystem)
    (target_index : CellIndex) (moved_height : ℚ) : Ecosystem :=
  let target := e.cells target_index
  let usable_sand := max (target.get_sand_height - moved_height) 0
  let reptation_height := min REPTATION_HEIGHT usable_sand
  match get_two_steepest_neighbors N e target_index with
  | (some sn1, second) =>
    let e := e.set target_index ((e.cells target_index).remove_sand reptation_height)
    match second with
    | some sn2 =>
      let share := if sn1.1.1 = 0 ∧ sn2.1.1 = 0 then 1/2 else reptShare
      let reptation_for_one := share * reptation_height
      let reptation_for_two := reptation_height - reptation_for_one
      let e := e.set sn1.2 ((e.cells sn1.2).add_sand reptation_for_one)
      e.set sn2.2 ((e.cells sn2.2).add_sand reptation_for_two)
    | none => e.set sn1.2 ((e.cells sn1.2).add_sand reptation_height)
  | _ => e

/-- The toroidally wrapped saltation target: the source computes
`((index + offset) % N + N) % N` componentwise, where the offset is the
`i32` cast of `direction · distance` (local wind trigonometry); that integer
offset is the parameter `off`. -/
def windSaltationTarget (N : ℕ) (off : ℤ × ℤ) (i : CellIndex) : CellIndex :=
  ⟨((((i.x : ℤ) + off.1) % (N : ℤ) + (N : ℤ)) % (N : ℤ)).toNat,
   ((((i.y : ℤ) + off.2) % (N : ℤ) + (N : ℤ)) % (N : ℤ)).toNat⟩

/-- `Events::apply_wind_event`.  Abstracted source values: `off` is the
integer saltation displacement (from the warped wind direction and strength,
see `windSaltationTarget`); `wind_shadowing` the `get_wind_shadowing` value
(built from `atan` of slopes); `u` the RNG draw deciding bounce vs deposit;
`reptShare` as in `perform_reptation`; `treeDensity`/`bushDensity` as in
`Cell.estimate_vegetation_density`.  Saltation lifts
`min(CARRYING_CAPACITY, sand)` at the origin, adds it at the wrapped target,
computes the bounce probability (at the origin index, as the source does),
then performs reptation at the target. -/
def apply_wind_event (N : ℕ) (off : ℤ × ℤ)
    (wind_shadowing u reptShare : ℚ) (treeDensity : Trees → ℚ)
    (bushDensity : Bushes → ℚ) (e : Ecosystem) (i : CellIndex) :
    Ecosystem × Option (Events × CellIndex) :=
  let cell := e.cells i
  let sand_height := cell.get_sand_height
  let moved_height := min CARRYING_CAPACITY sand_height
  let e := e.set i (cell.remove_sand moved_height)
  let target_index := windSaltationTarget N off i
  let e := e.set target_index ((e.cells target_index).add_sand moved_height)
  let bounce_probability := get_bounce_probability treeDensity bushDensity e i wind_shadowing
  let result := if bounce_probability < u then some (Events.Wind, target_index) else none
  let e := perform_reptation N reptShare e target_index moved_height
  (e, result)

/-! ### Illumination (`src/ecology/illumination.rs`) -/

/-- Three-component rational vector (`nalgebra::Vector3<f32>`). -/
abbrev Vec3 := ℚ × ℚ × ℚ

/-- Componentwise difference. -/
def sub3 (a b : Vec3) : Vec3 := (a.1 - b.1, a.2.1 - b.2.1, a.2.2 - b.2.2)

/-- Componentwise sum. -/
def add3 (a b : Vec3) : Vec3 := (a.1 + b.1, a.2.1 + b.2.1, a.2.2 + b.2.2)

/-- Scalar multiple. -/
def smul3 (t : ℚ) (a : Vec3) : Vec3 := (t * a.1, t * a.2.1, t * a.2.2)

/-- Dot product. -/
def dot3 (a b : Vec3) : ℚ := a.1 * b.1 + a.2.1 * b.2.1 + a.2.2 * b.2.2

/-- Cross product. -/
def cross3 (a b : Vec3) : Vec3 :=
  (a.2.1 * b.2.2 - a.2.2 * b.2.1,
   a.2.2 * b.1 - a.1 * b.2.2,
   a.1 * b.2.1 - a.2.1 * b.1)

/-- `Cell::get_normal_of_triangle` computes `normalize((b−a)×(c−a))` and then
flips the sign of the z *component* (only) when it is negative.  The
normalization divides by the positive, irrational euclidean norm; scaling the
normal and its plane scalar by the same positive factor leaves
`has_intersection` unchanged (the parameter `t` and every sign and bound test
are invariant), so the embedding keeps the unnormalized cross product and the
same z flip. -/
def normal_of_triangle (a b c : Vec3) : Vec3 :=
  let n := cross3 (sub3 b a) (sub3 c a)
  if n.2.2 < 0 then (n.1, n.2.1, -n.2.2) else n

/-- `CellTetrahedron`: the two-triangle terrain patch over
`[x,x+1]×[y,y+1]` with its plane normals and scalars (see
`CellTetrahedron::update`).  `coord0..coord3` are the top-left, top-right,
bottom-left and bottom-right corner positions. -/
structure CellTetrahedron where
  tl : CellIndex
  coord0 : Vec3
  coord1 : Vec3
  coord2 : Vec3
  coord3 : Vec3
  normal_one : Vec3
  normal_two : Vec3
  scalar_one : ℚ
  scalar_two : ℚ

/-- `CellTetrahedron::new`/`update`, as a function of the heightfield. -/
def CellTetrahedron.build (hts : CellIndex → ℚ) (i : CellIndex) : CellTetrahedron :=
  let a : Vec3 := ((i.x : ℚ), (i.y : ℚ), hts i)
  let b : Vec3 := ((i.x : ℚ) + 1, (i.y : ℚ), hts ⟨i.x + 1, i.y⟩)
  let c : Vec3 := ((i.x : ℚ), (i.y : ℚ) + 1, hts ⟨i.x, i.y + 1⟩)
  let d : Vec3 := ((i.x : ℚ) + 1, (i.y : ℚ) + 1, hts ⟨i.x + 1, i.y + 1⟩)
  let n1 := normal_of_triangle a c b
  let n2 := normal_of_triangle c d b
  { tl := i, coord0 := a, coord1 := b, coord2 := c, coord3 := d,
    normal_one := n1, normal_two := n2,
    scalar_one := -(dot3 n1 a), scalar_two := -(dot3 n2 c) }

/-- The numeric margin of the ray–triangle test (`0.00001`). -/
def rayMargin : ℚ := 1/100000

/-- One plane block of `CellTetrahedron::has_intersection`: plane
intersection, bounding-box test with margin, then the three half-plane
inclusion tests.  Both blocks of the source share this shape with
`(v0,v1,v2) = (coord0, coord2, coord1)` for the first triangle and
`(coord1, coord2, coord3)` for the second, and with the z bounds taken over
the respective three corner heights `z0,z1,z2`. -/
def planeBlock (tlx tly : ℚ) (normal : Vec3) (scalar : ℚ) (z0 z1 z2 : ℚ)
    (v0 v1 v2 : Vec3) (pos dir : Vec3) : Option ℚ :=
  let denom := dot3 normal dir
  if denom ≠ 0 then
    let t := -(dot3 normal pos + scalar) / denom
    if 0 < t then
      let intersect := add3 pos (smul3 t dir)
      let min_z := min z0 (min z1 z2)
      let max_z := max z0 (max z1 z2)
      if tlx < intersect.1 + rayMargin ∧ tlx + 1 > intersect.1 - rayMargin ∧
          tly < intersect.2.1 + rayMargin ∧ tly + 1 > intersect.2.1 - rayMargin ∧
          min_z < intersect.2.2 + rayMargin ∧ max_z > intersect.2.2 - rayMargin then
        let e0 := sub3 v1 v0
        let e1 := sub3 v2 v1
        let e2 := sub3 v0 v2
        let c0 := sub3 intersect v0
        let c1 := sub3 intersect v1
        let c2 := sub3 intersect v2
        if 0 ≤ dot3 normal (cross3 c0 e0) ∧ 0 ≤ dot3 normal (cross3 c1 e1) ∧
            0 ≤ dot3 normal (cross3 c2 e2) then
          some t
        else none
      else none
    else none
  else none

/-- `CellTetrahedron::has_intersection`: try the first plane, then the
second. -/
def CellTetrahedron.has_intersection (tet : CellTetrahedron) (pos dir : Vec3) :
    Option ℚ :=
  match planeBlock (tet.tl.x : ℚ) (tet.tl.y : ℚ) tet.normal_one tet.scalar_one
      tet.coord0.2.2 tet.coord1.2.2 tet.coord2.2.2
      tet.coord0 tet.coord2 tet.coord1 pos dir with
  | some t => some t
  | none => planeBlock (tet.tl.x : ℚ) (tet.tl.y : ℚ) tet.normal_two tet.scalar_two
      tet.coord3.2.2 tet.coord1.2.2 tet.coord2.2.2
      tet.coord1 tet.coord2 tet.coord3 pos dir

/-- Modelled from the spec: `Ecosystem::init_cell_tets` (called by
`update_tets`) is not among the source files; the spec's data model builds one
`CellTetrahedron` for each `(x,y)` with `x,y < N−1` from the current
heights. -/
def buildTets (N : ℕ) (hts : CellIndex → ℚ) : List CellTetrahedron :=
  (List.range (N - 1)).flatMap fun x =>
    (List.range (N - 1)).map fun y => CellTetrahedron.build hts ⟨x, y⟩

/-- The sun position for one month and hour: the elevation and the cartesian
direction toward the sun.  The source computes these with solar trigonometry
(`get_azimuth_and_elevation`, `convert_from_spherical_to_cartesian`) as a pure
function of month and hour — independent of the ecosystem — so the table is a
parameter of the embedding. -/
structure SunSample where
  elevation : ℚ
  dir : Vec3

/-- `Ecosystem::ray_trace_illumination`: over the 24 hours of the month's
first day, count the hours whose sun is not below the horizon
(the source skips the hour when `elevation < 0.0`) and whose ray from the
cell center (offset by `0.01·dir`) meets no tetrahedron; the result is the
count times `PERCENT_SUNNY_DAYS`. -/
def ray_trace_illumination (N : ℕ) (hts : CellIndex → ℚ)
    (sun : Fin 12 → ℕ → SunSample) (i : CellIndex) (month : Fin 12) : ℚ :=
  let tets := buildTets N hts
  let sunlitHours := (List.range 24).filter fun h =>
    let s := sun month h
    decide (0 ≤ s.elevation) &&
      !(tets.any fun tet =>
        let center : Vec3 := ((i.x : ℚ) + 1/2, (i.y : ℚ) + 1/2, hts i)
        let pos := add3 center (smul3 (1/100) s.dir)
        (tet.has_intersection pos s.dir).isSome)
  (sunlitHours.length : ℚ) * PERCENT_SUNNY_DAYS

/-- The heightfield of an ecosystem. -/
def heightsOf (e : Ecosystem) : CellIndex → ℚ := fun i => (e.cells i).get_height

/-- `Ecosystem::compute_hours_of_sunlight_for_cell`: the 12 monthly values. -/
def compute_hours_of_sunlight_for_cell (N : ℕ) (hts : CellIndex → ℚ)
    (sun : Fin 12 → ℕ → SunSample) (i : CellIndex) : Fin 12 → ℚ :=
  fun month => ray_trace_illumination N hts sun i month

/-- `Ecosystem::recompute_sunlight`.  The parallel map pushes the hours of
cell `(i,j)` at flat position `i·(N−1)+j` (i outer loop, j inner), but the
scatter loop assigns cell `(i,j)` the entry `cell_hours[i + j·(N−1)]`, which
is the one computed for cell `(j,i)`: each interior cell receives the ray
trace of its *transposed* index.  Cells on the two edge strips `x = N−1` or
`y = N−1` are never written and keep their prior cached values. -/
def recompute_sunlight (N : ℕ) (sun : Fin 12 → ℕ → SunSample) (e : Ecosystem) :
    Ecosystem :=
  ⟨fun i =>
    if i.x < N - 1 ∧ i.y < N - 1 then
      { e.cells i with
        hours_of_sunlight :=
          compute_hours_of_sunlight_for_cell N (heightsOf e) sun ⟨i.y, i.x⟩ }
    else e.cells i⟩

/-! ### Grid aggregates and concrete fixtures -/

/-- Total sand height over the `N × N` grid. -/
def sandSum (N : ℕ) (e : Ecosystem) : ℚ :=
  ∑ x ∈ Finset.range N, ∑ y ∈ Finset.range N, (e.cells ⟨x, y⟩).get_sand_height

/-- Total terrain height (sum of all four material layers) over the grid. -/
def heightSum (N : ℕ) (e : Ecosystem) : ℚ :=
  ∑ x ∈ Finset.range N, ∑ y ∈ Finset.range N, (e.cells ⟨x, y⟩).get_height

/-- A default-bedrock world whose cell `(1,1)` is raised to `100.7` m: its
four axis neighbors are `0.7` m below (slope `0.7/√1.49 ≈ 0.574`, angle
`≈ 35°`, beyond the 34° sand critical angle) and no cell holds any sand. -/
def ecoNoSand : Ecosystem :=
  Ecosystem.initE.set ⟨1, 1⟩ (Cell.defaultCell.set_height_of_bedrock (1007/10))

/-- A cell holding a single 30 m, 10 yr tree (as in the repo's own
`kill_trees` test). -/
def cellWithTree : Cell := { Cell.initC with trees := some ⟨1, 30, 10⟩ }

/-- A world whose every cell is bedrock of height `16000/13`, putting the
January temperature `-2 − 0.0065·(16000/13)` exactly at the red-maple
`TEMPERATURE_LIMIT_MIN = −10`. -/
def ecoColdKnot : Ecosystem :=
  ⟨fun _ => { Cell.initC with bedrock := some (16000/13) }⟩

/-- Bedrock `18000/13` everywhere: January temperature exactly `−11`, strictly
below the red-maple temperature limit. -/
def ecoColdBelow : Ecosystem :=
  ⟨fun _ => { Cell.initC with bedrock := some (18000/13) }⟩

/-- Wind fixture: origin `(1,1)` holds exactly `CARRYING_CAPACITY` of sand and
full grass coverage 3; the saltation target `(3,1)` holds 1 m of sand and the
same grasses; everything else is plain default bedrock. -/
def ecoWind : Ecosystem :=
  ⟨fun i =>
    if i = ⟨1, 1⟩ then
      { Cell.defaultCell with sand := some (1/5), grasses := some ⟨3⟩ }
    else if i = ⟨3, 1⟩ then
      { Cell.defaultCell with sand := some 1, grasses := some ⟨3⟩ }
    else Cell.defaultCell⟩

/-- The `ecoWind` state at the moment `apply_wind_event` computes the bounce
probability: the origin's lifted sand has been removed and added at the
target. -/
def ecoWindMid : Ecosystem :=
  let e := ecoWind.set ⟨1, 1⟩ ((ecoWind.cells ⟨1, 1⟩).remove_sand (1/5))
  e.set ⟨3, 1⟩ ((e.cells ⟨3, 1⟩).add_sand (1/5))

/-- A sun table with a single above-horizon hour (month 0, hour 0), looking
east and up with unit direction `(4/5, 0, 3/5)`; every other hour is below the
horizon. -/
def sunTableCex : Fin 12 → ℕ → SunSample :=
  fun m h => if m = 0 ∧ h = 0 then ⟨3/5, (4/5, 0, 3/5)⟩ else ⟨-1, (0, 0, 1)⟩

/-- A 4×4 world with a flat plateau of height `3/5` over cells
`(2,0),(3,0),(2,1),(3,1)` and height 0 elsewhere: under `sunTableCex` the ray
from cell `(1,0)` is blocked by the plateau patch while the ray from cell
`(0,1)` is unobstructed. -/
def ecoPlateau : Ecosystem :=
  ⟨fun i =>
    if (i.x = 2 ∨ i.x = 3) ∧ (i.y = 0 ∨ i.y = 1) then
      { Cell.initC with bedrock := some (3/5) }
    else { Cell.initC with bedrock := some 0 }⟩

/-- Flat zero-height world whose every cached `hours_of_sunlight` entry is 5. -/
def ecoEdgeA : Ecosystem :=
  ⟨fun _ => { Cell.initC with bedrock := some 0, hours_of_sunlight := fun _ => 5 }⟩

/-- Same heights as `ecoEdgeA` but cached `hours_of_sunlight` entries of 7. -/
def ecoEdgeB : Ecosystem :=
  ⟨fun _ => { Cell.initC with bedrock := some 0, hours_of_sunlight := fun _ => 7 }⟩

/-! ## Helper lemmas -/

theorem get_sand_add_sand (c : Cell) (h : ℚ) :
    (c.add_sand h).get_sand_height = c.get_sand_height + h := by
  rcases hs : c.sand with _ | s <;>
    simp [Cell.add_sand, Cell.get_sand_height, hs]

theorem get_rock_add_rocks (c : Cell) (h : ℚ) :
    (c.add_rocks h).get_rock_height = c.get_rock_height + h := by
  rcases hs : c.rock with _ | s <;>
    simp [Cell.add_rocks, Cell.get_rock_height, hs]

theorem get_humus_add_humus (c : Cell) (h : ℚ) :
    (c.add_humus h).get_humus_height = c.get_humus_height + h := by
  rcases hs : c.humus with _ | s <;>
    simp [Cell.add_humus, Cell.get_humus_height, hs]

theorem sand_isSome_add_sand (c : Cell) (h : ℚ) : (c.add_sand h).sand.isSome := by
  rcases hs : c.sand with _ | s <;> simp [Cell.add_sand, hs]

theorem get_sand_remove_sand_of_isSome (c : Cell) (h : ℚ) (hs : c.sand.isSome) :
    (c.remove_sand h).get_sand_height = c.get_sand_height - h := by
  rcases hc : c.sand with _ | s
  · simp [hc] at hs
  · simp [Cell.remove_sand, Cell.get_sand_height, hc]

theorem get_sand_remove_sand_lift (c : Cell) :
    (c.remove_sand (min CARRYING_CAPACITY c.get_sand_height)).get_sand_height
      = c.get_sand_height - min CARRYING_CAPACITY c.get_sand_height := by
  rcases hc : c.sand with _ | s
  · have h0 : c.get_sand_height = 0 := by simp [Cell.get_sand_height, hc]
    have hmin : min CARRYING_CAPACITY c.get_sand_height = 0 := by
      rw [h0]; exact min_eq_right (by unfold CARRYING_CAPACITY; norm_num)
    rw [hmin]
    simp [Cell.remove_sand, hc, h0]
  · simp [Cell.remove_sand, Cell.get_sand_height, hc]

theorem get_height_add_rocks (c : Cell) (h : ℚ) :
    (c.add_rocks h).get_height = c.get_height + h := by
  rcases hs : c.rock with _ | s <;>
    simp [Cell.add_rocks, Cell.get_height, hs] <;> ring

theorem get_height_add_sand (c : Cell) (h : ℚ) :
    (c.add_sand h).get_height = c.get_height + h := by
  rcases hs : c.sand with _ | s <;>
    simp [Cell.add_sand, Cell.get_height, hs] <;> ring

theorem layers_add_dead_vegetation (c : Cell) (b : ℚ) :
    ((c.add_dead_vegetation b).bedrock = c.bedrock ∧
      (c.add_dead_vegetation b).rock = c.rock ∧
      (c.add_dead_vegetation b).sand = c.sand ∧
      (c.add_dead_vegetation b).humus = c.humus) := by
  rcases hd : c.dead_vegetation with _ | d <;>
    simp [Cell.add_dead_vegetation, hd]

theorem layers_kill_trees (tB : Trees → ℚ) (c : Cell) :
    ((kill_trees tB c).bedrock = c.bedrock ∧ (kill_trees tB c).rock = c.rock ∧
      (kill_trees tB c).sand = c.sand ∧ (kill_trees tB c).humus = c.humus) := by
  rcases ht : c.trees with _ | t
  · simp [kill_trees, ht]
  · simp only [kill_trees, ht]
    exact layers_add_dead_vegetation _ _

theorem layers_kill_bushes (bB : Bushes → ℚ) (c : Cell) :
    ((kill_bushes bB c).bedrock = c.bedrock ∧ (kill_bushes bB c).rock = c.rock ∧
      (kill_bushes bB c).sand = c.sand ∧ (kill_bushes bB c).humus = c.humus) := by
  rcases ht : c.bushes with _ | t
  · simp [kill_bushes, ht]
  · simp only [kill_bushes, ht]
    exact layers_add_dead_vegetation _ _

theorem layers_kill_grasses (c : Cell) :
    ((kill_grasses c).bedrock = c.bedrock ∧ (kill_grasses c).rock = c.rock ∧
      (kill_grasses c).sand = c.sand ∧ (kill_grasses c).humus = c.humus) := by
  rcases ht : c.grasses with _ | t
  · simp [kill_grasses, ht]
  · simp only [kill_grasses, ht]
    exact layers_add_dead_vegetation _ _

theorem some_eq_ite_iff {c : Prop} [Decidable c] {a j : CellIndex} :
    (some j = if c then some a else none) ↔ c ∧ j = a := by
  split_ifs with hc <;> simp [hc]

theorem mem_neighborsList_iff {N : ℕ} {i j : CellIndex} :
    j ∈ neighborsList N i ↔
      ((0 < i.x ∧ 0 < i.y) ∧ j = ⟨i.x - 1, i.y - 1⟩) ∨
      (0 < i.y ∧ j = ⟨i.x, i.y - 1⟩) ∨
      ((i.x < N - 1 ∧ 0 < i.y) ∧ j = ⟨i.x + 1, i.y - 1⟩) ∨
      (0 < i.x ∧ j = ⟨i.x - 1, i.y⟩) ∨
      (i.x < N - 1 ∧ j = ⟨i.x + 1, i.y⟩) ∨
      ((0 < i.x ∧ i.y < N - 1) ∧ j = ⟨i.x - 1, i.y + 1⟩) ∨
      (i.y < N - 1 ∧ j = ⟨i.x, i.y + 1⟩) ∨
      ((i.x < N - 1 ∧ i.y < N - 1) ∧ j = ⟨i.x + 1, i.y + 1⟩) := by
  simp [neighborsList, Cell.get_neighbors, Neighbors.as_array,
    List.reduceOption_mem_iff, some_eq_ite_iff]

theorem mem_neighborsList_ne {N : ℕ} {i j : CellIndex}
    (hj : j ∈ neighborsList N i) : j ≠ i := by
  rw [mem_neighborsList_iff] at hj
  obtain ⟨ix, iy⟩ := i
  intro h
  subst h
  simp only [CellIndex.mk.injEq] at hj
  omega

theorem mem_neighborsList_lt {N : ℕ} {i j : CellIndex}
    (hx : i.x < N) (hy : i.y < N) (hj : j ∈ neighborsList N i) :
    j.x < N ∧ j.y < N := by
  rw [mem_neighborsList_iff] at hj
  rcases hj with ⟨h, rfl⟩ | ⟨h, rfl⟩ | ⟨h, rfl⟩ | ⟨h, rfl⟩ | ⟨h, rfl⟩ |
    ⟨h, rfl⟩ | ⟨h, rfl⟩ | ⟨h, rfl⟩ <;>
    refine ⟨?_, ?_⟩ <;> simp <;> omega

theorem neighborsList_nodup (N : ℕ) (i : CellIndex) :
    (neighborsList N i).Nodup := by
  by_cases hx0 : 0 < i.x <;> by_cases hxN : i.x < N - 1 <;>
    by_cases hy0 : 0 < i.y <;> by_cases hyN : i.y < N - 1 <;>
    simp [neighborsList, Cell.get_neighbors, Neighbors.as_array,
      List.reduceOption, hx0, hxN, hy0, hyN, CellIndex.mk.injEq] <;>
    omega

theorem neighborsList_length_interior {N : ℕ} {i : CellIndex}
    (h1 : 0 < i.x) (h2 : i.x < N - 1) (h3 : 0 < i.y) (h4 : i.y < N - 1) :
    (neighborsList N i).length = 8 := by
  simp [neighborsList, Cell.get_neighbors, Neighbors.as_array,
    List.reduceOption, h1, h2, h3, h4]

theorem sum_cells_set (f : Cell → ℚ) {N : ℕ} (e : Ecosystem) {i : CellIndex}
    (c : Cell) (hx : i.x < N) (hy : i.y < N) :
    (∑ x ∈ Finset.range N, ∑ y ∈ Finset.range N, f ((e.set i c).cells ⟨x, y⟩))
      = (∑ x ∈ Finset.range N, ∑ y ∈ Finset.range N, f (e.cells ⟨x, y⟩))
        + (f c - f (e.cells i)) := by
  rw [← Finset.sum_product', ← Finset.sum_product']
  have hmem : (i.x, i.y) ∈ Finset.range N ×ˢ Finset.range N := by
    simp [Finset.mem_product, hx, hy]
  rw [← Finset.sum_erase_add _ _ hmem, ← Finset.sum_erase_add _ _ hmem]
  have hcong : ∀ p ∈ (Finset.range N ×ˢ Finset.range N).erase (i.x, i.y),
      f ((e.set i c).cells ⟨p.1, p.2⟩) = f (e.cells ⟨p.1, p.2⟩) := by
    intro p hp
    have hne : p ≠ (i.x, i.y) := Finset.ne_of_mem_erase hp
    have hii : (⟨p.1, p.2⟩ : CellIndex) ≠ i := by
      intro hcontra
      exact hne (Prod.ext (congrArg CellIndex.x hcontra) (congrArg CellIndex.y hcontra))
    simp [Ecosystem.set, hii]
  rw [Finset.sum_congr rfl hcong]
  have hei : (⟨i.x, i.y⟩ : CellIndex) = i := rfl
  have hset : (e.set i c).cells ⟨i.x, i.y⟩ = c := by simp [Ecosystem.set, hei]
  rw [hset, hei]
  ring

theorem sandSum_set {N : ℕ} (e : Ecosystem) {i : CellIndex} (c : Cell)
    (hx : i.x < N) (hy : i.y < N) :
    sandSum N (e.set i c)
      = sandSum N e + (c.get_sand_height - (e.cells i).get_sand_height) := by
  unfold sandSum
  exact sum_cells_set Cell.get_sand_height e c hx hy

theorem heightSum_set {N : ℕ} (e : Ecosystem) {i : CellIndex} (c : Cell)
    (hx : i.x < N) (hy : i.y < N) :
    heightSum N (e.set i c)
      = heightSum N e + (c.get_height - (e.cells i).get_height) := by
  unfold heightSum
  exact sum_cells_set Cell.get_height e c hx hy

theorem cells_set_ne (e : Ecosystem) (i : CellIndex) (c : Cell) {k : CellIndex}
    (hk : k ≠ i) : (e.set i c).cells k = e.cells k := by
  simp [Ecosystem.set, hk]

theorem cells_set_self (e : Ecosystem) (i : CellIndex) (c : Cell) :
    (e.set i c).cells i = c := by
  simp [Ecosystem.set]

theorem emod_add_emod_toNat_lt (a : ℤ) (N : ℕ) (hN : 0 < N) :
    ((a % (N : ℤ) + (N : ℤ)) % (N : ℤ)).toNat < N := by
  have hN' : (0 : ℤ) < (N : ℤ) := by exact_mod_cast hN
  have h2 : (a % (N : ℤ) + (N : ℤ)) % (N : ℤ) < (N : ℤ) :=
    Int.emod_lt_of_pos _ hN'
  omega

theorem windSaltationTarget_lt (N : ℕ) (off : ℤ × ℤ) (i : CellIndex)
    (hN : 0 < N) :
    (windSaltationTarget N off i).x < N
    ∧ (windSaltationTarget N off i).y < N :=
  ⟨emod_add_emod_toNat_lt ((i.x : ℤ) + off.1) N hN,
    emod_add_emod_toNat_lt ((i.y : ℤ) + off.2) N hN⟩

theorem steepest_fst_mem (N : ℕ) (e : Ecosystem) (i : CellIndex)
    {p : (ℚ × ℚ) × CellIndex}
    (hp : (get_two_steepest_neighbors N e i).1 = some p) :
    p.2 ∈ neighborsList N i := by
  simp only [get_two_steepest_neighbors] at hp
  have hmem : p ∈ ((neighborsList N i).filterMap fun j =>
      if 0 ≤ heightDiff e i j
      then some ((heightDiff e i j, horizDistSq i j), j)
      else none).insertionSort fun a b => slopeKeyGE a.1 b.1 :=
    List.mem_of_mem_head? (Option.mem_def.mpr hp)
  have hslopes := (List.perm_insertionSort _ _).subset hmem
  rcases List.mem_filterMap.mp hslopes with ⟨j, hj, hfj⟩
  split_ifs at hfj
  cases Option.some.inj hfj
  exact hj

theorem steepest_snd_mem (N : ℕ) (e : Ecosystem) (i : CellIndex)
    {p : (ℚ × ℚ) × CellIndex}
    (hp : (get_two_steepest_neighbors N e i).2 = some p) :
    p.2 ∈ neighborsList N i := by
  simp only [get_two_steepest_neighbors] at hp
  have hmem : p ∈ ((neighborsList N i).filterMap fun j =>
      if 0 ≤ heightDiff e i j
      then some ((heightDiff e i j, horizDistSq i j), j)
      else none).insertionSort fun a b => slopeKeyGE a.1 b.1 :=
    (List.tail_sublist _).subset (List.mem_of_mem_head? (Option.mem_def.mpr hp))
  have hslopes := (List.perm_insertionSort _ _).subset hmem
  rcases List.mem_filterMap.mp hslopes with ⟨j, hj, hfj⟩
  split_ifs at hfj
  cases Option.some.inj hfj
  exact hj

theorem sandSum_perform_reptation (N : ℕ) (r : ℚ) (e : Ecosystem)
    (t : CellIndex) (m : ℚ) (htx : t.x < N) (hty : t.y < N)
    (hsome : (e.cells t).sand.isSome) :
    sandSum N (perform_reptation N r e t m) = sandSum N e := by
  unfold perform_reptation
  rcases hg : get_two_steepest_neighbors N e t with ⟨o1, o2⟩
  rcases o1 with _ | sn1
  · rfl
  · obtain ⟨hx1, hy1⟩ :=
      mem_neighborsList_lt htx hty (steepest_fst_mem N e t (by rw [hg]))
    rcases o2 with _ | sn2
    · simp only []
      rw [sandSum_set _ _ hx1 hy1, sandSum_set _ _ htx hty,
        get_sand_add_sand, get_sand_remove_sand_of_isSome _ _ hsome]
      ring
    · obtain ⟨hx2, hy2⟩ :=
        mem_neighborsList_lt htx hty (steepest_snd_mem N e t (by rw [hg]))
      simp only []
      rw [sandSum_set _ _ hx2 hy2, sandSum_set _ _ hx1 hy1,
        sandSum_set _ _ htx hty, get_sand_add_sand, get_sand_add_sand,
        get_sand_remove_sand_of_isSome _ _ hsome]
      ring

/-! ## Claim C1 -/

/-- C1 (counterexample): the claim says `remove_sand` saturates at 0 and layer
heights stay nonnegative; but removing 2 m of sand from a cell holding 1 m
leaves a sand height of `−1`. -/
theorem C1_counterexample :
    ((Cell.initC.add_sand 1).remove_sand 2).get_sand_height = -1 ∧
      ¬(0 ≤ ((Cell.initC.add_sand 1).remove_sand 2).get_sand_height) := by
  constructor <;>
    norm_num [Cell.initC, Cell.add_sand, Cell.remove_sand, Cell.get_sand_height]

/-- C1 (amended): `remove_bedrock`/`remove_rocks`/`remove_sand`/`remove_humus`
subtract the full requested height when the layer is present and are no-ops
when the layer is absent — there is no saturation at 0, so removing more than
the stored height leaves a negative layer height. -/
theorem C1_remove_without_saturation (c : Cell) (h : ℚ) :
    ((c.remove_bedrock h).get_bedrock_height
        = if c.bedrock.isSome then c.get_bedrock_height - h else 0)
    ∧ ((c.remove_rocks h).get_rock_height
        = if c.rock.isSome then c.get_rock_height - h else 0)
    ∧ ((c.remove_sand h).get_sand_height
        = if c.sand.isSome then c.get_sand_height - h else 0)
    ∧ ((c.remove_humus h).get_humus_height
        = if c.humus.isSome then c.get_humus_height - h else 0)
    ∧ (c.sand.isSome → c.get_sand_height < h →
        (c.remove_sand h).get_sand_height < 0) := by
  refine ⟨?_, ?_, ?_, ?_, ?_⟩
  · rcases hb : c.bedrock with _ | b <;>
      simp [Cell.remove_bedrock, Cell.get_bedrock_height, hb]
  · rcases hb : c.rock with _ | b <;>
      simp [Cell.remove_rocks, Cell.get_rock_height, hb]
  · rcases hb : c.sand with _ | b <;>
      simp [Cell.remove_sand, Cell.get_sand_height, hb]
  · rcases hb : c.humus with _ | b <;>
      simp [Cell.remove_humus, Cell.get_humus_height, hb]
  · intro hs hlt
    rw [get_sand_remove_sand_of_isSome c h hs]
    linarith

/-- C1 (witness for the amended theorem): concrete instance at a cell holding
1 m of sand, removing 2 m. -/
theorem C1_remove_without_saturation_witness :
    (((Cell.initC.add_sand 1).remove_bedrock 2).get_bedrock_height
        = if (Cell.initC.add_sand 1).bedrock.isSome
          then (Cell.initC.add_sand 1).get_bedrock_height - 2 else 0)
    ∧ (((Cell.initC.add_sand 1).remove_rocks 2).get_rock_height
        = if (Cell.initC.add_sand 1).rock.isSome
          then (Cell.initC.add_sand 1).get_rock_height - 2 else 0)
    ∧ (((Cell.initC.add_sand 1).remove_sand 2).get_sand_height
        = if (Cell.initC.add_sand 1).sand.isSome
          then (Cell.initC.add_sand 1).get_sand_height - 2 else 0)
    ∧ (((Cell.initC.add_sand 1).remove_humus 2).get_humus_height
        = if (Cell.initC.add_sand 1).humus.isSome
          then (Cell.initC.add_sand 1).get_humus_height - 2 else 0)
    ∧ ((Cell.initC.add_sand 1).sand.isSome →
        (Cell.initC.add_sand 1).get_sand_height < 2 →
        ((Cell.initC.add_sand 1).remove_sand 2).get_sand_height < 0) :=
  C1_remove_without_saturation (Cell.initC.add_sand 1) 2

/-! ## Claims C4 and C5 -/

theorem get_sand_remove_zero (c : Cell) :
    (c.remove_sand 0).get_sand_height = c.get_sand_height := by
  rcases hc : c.sand with _ | s <;>
    simp [Cell.remove_sand, Cell.get_sand_height, hc]

/-- C4: a single granular slide conserves the slid material: writing `e'` for
the post-state of one `apply_sand_slide_event` (resp. rock, humus) invocation
that moves material from `i` to the chosen critical neighbor `j`,
`sand_i + sand_j` is unchanged and every other cell is untouched; analogously
for rock and humus. -/
theorem C4_slide_mass_conservation :
    (∀ (N : ℕ) (sc ideal : ℚ) (pick : List CellIndex → Option CellIndex)
        (e : Ecosystem) (i j : CellIndex),
      pick (criticalNeighborsList N sc e i) = some j →
      j ∈ criticalNeighborsList N sc e i →
      (((apply_sand_slide_event N sc pick ideal e i).1.cells i).get_sand_height
          + ((apply_sand_slide_event N sc pick ideal e i).1.cells j).get_sand_height
        = (e.cells i).get_sand_height + (e.cells j).get_sand_height)
      ∧ ∀ k, k ≠ i → k ≠ j →
          (apply_sand_slide_event N sc pick ideal e i).1.cells k = e.cells k)
    ∧ (∀ (N : ℕ) (sc ideal : ℚ) (pick : List CellIndex → Option CellIndex)
        (e : Ecosystem) (i j : CellIndex),
      pick (criticalNeighborsList N sc e i) = some j →
      j ∈ criticalNeighborsList N sc e i →
      (((apply_rock_slide_event N sc pick ideal e i).1.cells i).get_rock_height
          + ((apply_rock_slide_event N sc pick ideal e i).1.cells j).get_rock_height
        = (e.cells i).get_rock_height + (e.cells j).get_rock_height)
      ∧ ∀ k, k ≠ i → k ≠ j →
          (apply_rock_slide_event N sc pick ideal e i).1.cells k = e.cells k)
    ∧ (∀ (N : ℕ) (sc ideal : ℚ) (pick : List CellIndex → Option CellIndex)
        (e : Ecosystem) (i j : CellIndex),
      pick (criticalNeighborsList N sc e i) = some j →
      j ∈ criticalNeighborsList N sc e i →
      (((apply_humus_slide_event N sc pick ideal e i).1.cells i).get_humus_height
          + ((apply_humus_slide_event N sc pick ideal e i).1.cells j).get_humus_height
        = (e.cells i).get_humus_height + (e.cells j).get_humus_height)
      ∧ ∀ k, k ≠ i → k ≠ j →
          (apply_humus_slide_event N sc pick ideal e i).1.cells k = e.cells k) := by
  refine ⟨?_, ?_, ?_⟩ <;>
  · intro N sc ideal pick e i j hpick hmem
    have hj_ne_i : j ≠ i := mem_neighborsList_ne (List.mem_of_mem_filter hmem)
    rcases hcl : criticalNeighborsList N sc e i with _ | ⟨a, l⟩
    · rw [hcl] at hmem; simp at hmem
    · rw [hcl] at hpick
      first
      | (unfold apply_sand_slide_event
         simp only [hcl, List.isEmpty_cons, Bool.false_eq_true, if_false, hpick]
         constructor
         · rw [cells_set_ne _ _ _ hj_ne_i.symm, cells_set_self, cells_set_self,
             cells_set_ne _ _ _ hj_ne_i]
           rcases hsand : (e.cells i).sand with _ | s
           · have hh0 : compute_sand_height_to_slide e i ideal = 0 := by
               simp [compute_sand_height_to_slide, Cell.get_sand_height, hsand]
             rw [hh0, get_sand_remove_zero, get_sand_add_sand]
             ring
           · rw [get_sand_add_sand,
               get_sand_remove_sand_of_isSome _ _ (by simp [hsand])]
             ring
         · intro k hki hkj
           rw [cells_set_ne _ _ _ hkj, cells_set_ne _ _ _ hki])
      | (unfold apply_rock_slide_event
         simp only [hcl, List.isEmpty_cons, Bool.false_eq_true, if_false, hpick]
         constructor
         · rw [cells_set_ne _ _ _ hj_ne_i.symm, cells_set_self, cells_set_self,
             cells_set_ne _ _ _ hj_ne_i]
           rcases hrock : (e.cells i).rock with _ | s
           · have hh0 : compute_rock_height_to_slide e i ideal = 0 := by
               simp [compute_rock_height_to_slide, hrock]
             rw [hh0]
             rw [get_rock_add_rocks]
             simp [Cell.remove_rocks, Cell.get_rock_height, hrock]
           · rw [get_rock_add_rocks]
             simp only [Cell.remove_rocks, hrock, Cell.get_rock_height,
               Option.getD_some]
             ring
         · intro k hki hkj
           rw [cells_set_ne _ _ _ hkj, cells_set_ne _ _ _ hki])
      | (unfold apply_humus_slide_event
         simp only [hcl, List.isEmpty_cons, Bool.false_eq_true, if_false, hpick]
         constructor
         · rw [cells_set_ne _ _ _ hj_ne_i.symm, cells_set_self, cells_set_self,
             cells_set_ne _ _ _ hj_ne_i]
           rcases hhum : (e.cells i).humus with _ | s
           · have hh0 : compute_humus_height_to_slide e i ideal = 0 := by
               simp [compute_humus_height_to_slide, Cell.get_humus_height, hhum]
             rw [hh0, get_humus_add_humus]
             simp [Cell.remove_humus, Cell.get_humus_height, hhum]
           · rw [get_humus_add_humus]
             simp only [Cell.remove_humus, hhum, Cell.get_humus_height,
               Option.getD_some]
             ring
         · intro k hki hkj
           rw [cells_set_ne _ _ _ hkj, cells_set_ne _ _ _ hki])

/-- C4 (witness): the conservation statement instantiated on a concrete 3×3
slide from `ecoNoSand`'s raised cell `(1,1)` to `(1,0)`. -/
theorem C4_slide_mass_conservation_witness :
    (((apply_sand_slide_event 3 (55919/100000) (fun l => l.head?) 0 ecoNoSand
          ⟨1, 1⟩).1.cells ⟨1, 1⟩).get_sand_height
        + ((apply_sand_slide_event 3 (55919/100000) (fun l => l.head?) 0 ecoNoSand
          ⟨1, 1⟩).1.cells ⟨1, 0⟩).get_sand_height
      = (ecoNoSand.cells ⟨1, 1⟩).get_sand_height
        + (ecoNoSand.cells ⟨1, 0⟩).get_sand_height)
    ∧ ∀ k, k ≠ (⟨1, 1⟩ : CellIndex) → k ≠ (⟨1, 0⟩ : CellIndex) →
        (apply_sand_slide_event 3 (55919/100000) (fun l => l.head?) 0 ecoNoSand
          ⟨1, 1⟩).1.cells k = ecoNoSand.cells k :=
  C4_slide_mass_conservation.1 3 (55919/100000) 0 (fun l => l.head?) ecoNoSand
    ⟨1, 1⟩ ⟨1, 0⟩ (by with_unfolding_all decide) (by with_unfolding_all decide)

/-- C5 (counterexample): the claim says a slide from a cell with none of the
material is a no-op returning `None` regardless of slopes; but from
`ecoNoSand`'s raised, sand-free cell `(1,1)` the sand-slide event returns
`Some((SandSlide, (1,0)))` and propagates. -/
theorem C5_counterexample :
    (apply_sand_slide_event 3 (55919/100000) (fun l => l.head?) 0 ecoNoSand
        ⟨1, 1⟩).2 = some (Events.SandSlide, ⟨1, 0⟩)
    ∧ some (Events.SandSlide, (⟨1, 0⟩ : CellIndex))
        ≠ (none : Option (Events × CellIndex))
    ∧ (ecoNoSand.cells ⟨1, 1⟩).get_sand_height = 0 := by
  refine ⟨?_, by simp, ?_⟩ <;> with_unfolding_all decide

/-- C5 (amended): a sand slide from a cell with no sand never changes any
cell's sand height; but it returns `None` only when no neighbor meets the
critical angle — when the critical-neighbor list is nonempty and the weighted
draw selects `j`, the event still returns `Some((SandSlide, j))` and
propagates. -/
theorem C5_no_material_slide :
    (∀ (N : ℕ) (sc ideal : ℚ) (pick : List CellIndex → Option CellIndex)
        (e : Ecosystem) (i : CellIndex),
      (e.cells i).get_sand_height = 0 →
      ∀ k, (((apply_sand_slide_event N sc pick ideal e i).1.cells k).get_sand_height
        = (e.cells k).get_sand_height))
    ∧ (∀ (N : ℕ) (sc ideal : ℚ) (pick : List CellIndex → Option CellIndex)
        (e : Ecosystem) (i : CellIndex),
      criticalNeighborsList N sc e i = [] →
      apply_sand_slide_event N sc pick ideal e i = (e, none))
    ∧ (∀ (N : ℕ) (sc ideal : ℚ) (pick : List CellIndex → Option CellIndex)
        (e : Ecosystem) (i j : CellIndex),
      pick (criticalNeighborsList N sc e i) = some j →
      j ∈ criticalNeighborsList N sc e i →
      (apply_sand_slide_event N sc pick ideal e i).2
        = some (Events.SandSlide, j)) := by
  refine ⟨?_, ?_, ?_⟩
  · intro N sc ideal pick e i hzero k
    unfold apply_sand_slide_event
    rcases hcl : criticalNeighborsList N sc e i with _ | ⟨a, l⟩
    · simp
    · simp only [List.isEmpty_cons, Bool.false_eq_true, if_false]
      rcases hpick : pick (a :: l) with _ | j
      · simp
      · simp only []
        have hh0 : compute_sand_height_to_slide e i ideal = 0 := by
          simp [compute_sand_height_to_slide, hzero]
        rw [hh0]
        by_cases hkj : k = j
        · subst hkj
          rw [cells_set_self, get_sand_add_sand]
          by_cases hki : k = i
          · subst hki
            rw [cells_set_self, get_sand_remove_zero]
            ring
          · rw [cells_set_ne _ _ _ hki]
            ring
        · rw [cells_set_ne _ _ _ hkj]
          by_cases hki : k = i
          · subst hki
            rw [cells_set_self, get_sand_remove_zero]
          · rw [cells_set_ne _ _ _ hki]
  · intro N sc ideal pick e i hcl
    unfold apply_sand_slide_event
    rw [hcl]
    simp
  · intro N sc ideal pick e i j hpick hmem
    unfold apply_sand_slide_event
    rcases hcl : criticalNeighborsList N sc e i with _ | ⟨a, l⟩
    · rw [hcl] at hmem; simp at hmem
    · rw [hcl] at hpick
      simp only [hcl, List.isEmpty_cons, Bool.false_eq_true, if_false, hpick]

/-- C5 (witness for the amended theorem): the zero-sand slide at `ecoNoSand`'s
cell `(1,1)` preserves every sand height, and its critical-neighbor list being
nonempty makes it return `Some((SandSlide, (1,0)))`. -/
theorem C5_no_material_slide_witness :
    (∀ k, (((apply_sand_slide_event 3 (55919/100000) (fun l => l.head?) 0
        ecoNoSand ⟨1, 1⟩).1.cells k).get_sand_height
      = (ecoNoSand.cells k).get_sand_height))
    ∧ (apply_sand_slide_event 3 (55919/100000) (fun l => l.head?) 0 ecoNoSand
        ⟨1, 1⟩).2 = some (Events.SandSlide, ⟨1, 0⟩) :=
  ⟨C5_no_material_slide.1 3 (55919/100000) 0 (fun l => l.head?) ecoNoSand
      ⟨1, 1⟩ (by with_unfolding_all decide),
    C5_no_material_slide.2.2 3 (55919/100000) 0 (fun l => l.head?) ecoNoSand
      ⟨1, 1⟩ ⟨1, 0⟩ (by with_unfolding_all decide) (by with_unfolding_all decide)⟩

/-! ## Claim C3 -/

theorem add_rocks_fields (c : Cell) (h : ℚ) :
    (c.add_rocks h).bedrock = c.bedrock ∧ (c.add_rocks h).sand = c.sand ∧
      (c.add_rocks h).humus = c.humus := by
  rcases hr : c.rock with _ | r <;> simp [Cell.add_rocks, hr]

theorem add_sand_fields (c : Cell) (h : ℚ) :
    (c.add_sand h).bedrock = c.bedrock ∧ (c.add_sand h).rock = c.rock ∧
      (c.add_sand h).humus = c.humus := by
  rcases hr : c.sand with _ | r <;> simp [Cell.add_sand, hr]

theorem layers_killed (tB : Trees → ℚ) (bB : Bushes → ℚ) (c : Cell) :
    ((kill_grasses (kill_bushes bB (kill_trees tB c))).bedrock = c.bedrock ∧
      (kill_grasses (kill_bushes bB (kill_trees tB c))).rock = c.rock ∧
      (kill_grasses (kill_bushes bB (kill_trees tB c))).sand = c.sand ∧
      (kill_grasses (kill_bushes bB (kill_trees tB c))).humus = c.humus) := by
  obtain ⟨g1, g2, g3, g4⟩ := layers_kill_grasses (kill_bushes bB (kill_trees tB c))
  obtain ⟨b1, b2, b3, b4⟩ := layers_kill_bushes bB (kill_trees tB c)
  obtain ⟨t1, t2, t3, t4⟩ := layers_kill_trees tB c
  exact ⟨g1.trans (b1.trans t1), g2.trans (b2.trans t2),
    g3.trans (b3.trans t3), g4.trans (b4.trans t4)⟩

theorem foldl_addRS_cells_not_mem (h : ℚ) (L : List CellIndex) (e : Ecosystem)
    {k : CellIndex} (hk : k ∉ L) :
    (L.foldl (fun acc j =>
        acc.set j (((acc.cells j).add_rocks (h / 2)).add_sand (h / 2))) e).cells k
      = e.cells k := by
  induction L generalizing e with
  | nil => rfl
  | cons a t ih =>
    simp only [List.foldl_cons]
    have hka : k ≠ a := fun hc => hk (hc ▸ List.mem_cons_self a t)
    rw [ih _ (fun hm => hk (List.mem_cons_of_mem a hm))]
    exact cells_set_ne _ _ _ hka

theorem foldl_addRS_cells_mem (h : ℚ) (L : List CellIndex) (e : Ecosystem)
    {k : CellIndex} (hk : k ∈ L) (hnd : L.Nodup) :
    (L.foldl (fun acc j =>
        acc.set j (((acc.cells j).add_rocks (h / 2)).add_sand (h / 2))) e).cells k
      = ((e.cells k).add_rocks (h / 2)).add_sand (h / 2) := by
  induction L generalizing e with
  | nil => cases hk
  | cons a t ih =>
    simp only [List.foldl_cons]
    rcases List.mem_cons.mp hk with rfl | hkt
    · have hat : k ∉ t := (List.nodup_cons.mp hnd).1
      rw [foldl_addRS_cells_not_mem h t _ hat, cells_set_self]
    · have hka : k ≠ a := by
        rintro rfl
        exact (List.nodup_cons.mp hnd).1 hkt
      rw [ih _ hkt (List.nodup_cons.mp hnd).2, cells_set_ne _ _ _ hka]

theorem foldl_addRS_heightSum (h : ℚ) (L : List CellIndex) {N : ℕ}
    (e : Ecosystem) (hin : ∀ j ∈ L, j.x < N ∧ j.y < N) :
    heightSum N (L.foldl (fun acc j =>
        acc.set j (((acc.cells j).add_rocks (h / 2)).add_sand (h / 2))) e)
      = heightSum N e + L.length * h := by
  induction L generalizing e with
  | nil => simp
  | cons a t ih =>
    simp only [List.foldl_cons, List.length_cons]
    rw [ih _ (fun j hj => hin j (List.mem_cons_of_mem a hj))]
    rw [heightSum_set e _ (hin a (List.mem_cons_self a t)).1
      (hin a (List.mem_cons_self a t)).2]
    rw [get_height_add_sand, get_height_add_rocks]
    push_cast
    ring

theorem lightningStruckCell_fields (tB : Trees → ℚ) (bB : Bushes → ℚ)
    (lost hpc : ℚ) (c : Cell) {b : ℚ} (hbe : c.bedrock = some b) :
    ((lightningStruckCell tB bB lost hpc c).get_bedrock_height
        = c.get_bedrock_height - lost)
    ∧ ((lightningStruckCell tB bB lost hpc c).get_rock_height
        = c.get_rock_height + hpc / 2)
    ∧ ((lightningStruckCell tB bB lost hpc c).get_sand_height
        = c.get_sand_height + hpc / 2)
    ∧ ((lightningStruckCell tB bB lost hpc c).get_height
        = c.get_height + hpc - lost) := by
  unfold lightningStruckCell
  set K := kill_grasses (kill_bushes bB (kill_trees tB c)) with hKdef
  obtain ⟨k1, k2, k3, k4⟩ := layers_killed tB bB c
  rw [← hKdef] at k1 k2 k3 k4
  have hKb : K.bedrock = some b := k1.trans hbe
  rcases hbr : c.rock with _ | vr <;> rcases hbs : c.sand with _ | vs <;>
    rcases hbh : c.humus with _ | vh <;>
    simp [Cell.add_rocks, Cell.add_sand, Cell.get_bedrock_height,
      Cell.get_rock_height, Cell.get_sand_height, Cell.get_height,
      k2, k3, k4, hbr, hbs, hbh, hKb, hbe] <;>
    ring

/-- C3 (amended): when a lightning strike fires (`rand ≤ prob`) at a cell with
a bedrock layer, the struck cell's bedrock drops by exactly `V/S²`; the struck
cell and each of its boundary-truncated neighbors gain
`(V/n)/(2S²)` of rock and the same of sand where `n = #neighbors + 1`
(so `(V/9)/(2S²)` exactly on interior cells, where `n = 9`); the total terrain
height over the grid — hence the displaced volume — is conserved; and the
kernel does not propagate. -/
theorem C3_lightning_strike (N : ℕ) (tB : Trees → ℚ) (bB : Bushes → ℚ)
    (rand prob : ℚ) (e : Ecosystem) (i : CellIndex)
    (hrp : rand ≤ prob) (hx : i.x < N) (hy : i.y < N)
    (hb : (e.cells i).bedrock.isSome) :
    (((apply_lightning_event_helper N tB bB rand prob e i).1.cells i).get_bedrock_height
        = (e.cells i).get_bedrock_height
          - LIGHTNING_BEDROCK_DISPLACEMENT_VOLUME / (CELL_SIDE_LENGTH * CELL_SIDE_LENGTH))
    ∧ (((apply_lightning_event_helper N tB bB rand prob e i).1.cells i).get_rock_height
        = (e.cells i).get_rock_height
          + (LIGHTNING_BEDROCK_DISPLACEMENT_VOLUME
              / (((neighborsList N i).length + 1 : ℕ) : ℚ))
            / (CELL_SIDE_LENGTH * CELL_SIDE_LENGTH) / 2)
    ∧ (((apply_lightning_event_helper N tB bB rand prob e i).1.cells i).get_sand_height
        = (e.cells i).get_sand_height
          + (LIGHTNING_BEDROCK_DISPLACEMENT_VOLUME
              / (((neighborsList N i).length + 1 : ℕ) : ℚ))
            / (CELL_SIDE_LENGTH * CELL_SIDE_LENGTH) / 2)
    ∧ (∀ j ∈ neighborsList N i,
        (((apply_lightning_event_helper N tB bB rand prob e i).1.cells j).get_rock_height
            = (e.cells j).get_rock_height
              + (LIGHTNING_BEDROCK_DISPLACEMENT_VOLUME
                  / (((neighborsList N i).length + 1 : ℕ) : ℚ))
                / (CELL_SIDE_LENGTH * CELL_SIDE_LENGTH) / 2)
          ∧ (((apply_lightning_event_helper N tB bB rand prob e i).1.cells j).get_sand_height
            = (e.cells j).get_sand_height
              + (LIGHTNING_BEDROCK_DISPLACEMENT_VOLUME
                  / (((neighborsList N i).length + 1 : ℕ) : ℚ))
                / (CELL_SIDE_LENGTH * CELL_SIDE_LENGTH) / 2))
    ∧ heightSum N (apply_lightning_event_helper N tB bB rand prob e i).1 = heightSum N e
    ∧ (0 < i.x → i.x < N - 1 → 0 < i.y → i.y < N - 1 →
        (((neighborsList N i).length + 1 : ℕ) : ℚ) = 9)
    ∧ (apply_lightning_event_helper N tB bB rand prob e i).2 = none := by
  obtain ⟨b, hbe⟩ := Option.isSome_iff_exists.mp hb
  have hnotlt : ¬(prob < rand) := not_lt.mpr hrp
  have hinot : i ∉ neighborsList N i := fun hmem => (mem_neighborsList_ne hmem) rfl
  have happ : apply_lightning_event_helper N tB bB rand prob e i
      = ((neighborsList N i).foldl (fun acc j =>
          acc.set j (((acc.cells j).add_rocks
            (((LIGHTNING_BEDROCK_DISPLACEMENT_VOLUME
                / (((neighborsList N i).length + 1 : ℕ) : ℚ))
              / (CELL_SIDE_LENGTH * CELL_SIDE_LENGTH)) / 2)).add_sand
            (((LIGHTNING_BEDROCK_DISPLACEMENT_VOLUME
                / (((neighborsList N i).length + 1 : ℕ) : ℚ))
              / (CELL_SIDE_LENGTH * CELL_SIDE_LENGTH)) / 2)))
          (e.set i (lightningStruckCell tB bB
            (LIGHTNING_BEDROCK_DISPLACEMENT_VOLUME
              / (CELL_SIDE_LENGTH * CELL_SIDE_LENGTH))
            ((LIGHTNING_BEDROCK_DISPLACEMENT_VOLUME
                / (((neighborsList N i).length + 1 : ℕ) : ℚ))
              / (CELL_SIDE_LENGTH * CELL_SIDE_LENGTH))
            (e.cells i))), none) := by
    unfold apply_lightning_event_helper
    rw [if_neg hnotlt]
  obtain ⟨f1, f2, f3, f4⟩ := lightningStruckCell_fields tB bB
    (LIGHTNING_BEDROCK_DISPLACEMENT_VOLUME / (CELL_SIDE_LENGTH * CELL_SIDE_LENGTH))
    ((LIGHTNING_BEDROCK_DISPLACEMENT_VOLUME
        / (((neighborsList N i).length + 1 : ℕ) : ℚ))
      / (CELL_SIDE_LENGTH * CELL_SIDE_LENGTH))
    (e.cells i) hbe
  have hcells_i : (apply_lightning_event_helper N tB bB rand prob e i).1.cells i
      = lightningStruckCell tB bB
          (LIGHTNING_BEDROCK_DISPLACEMENT_VOLUME
            / (CELL_SIDE_LENGTH * CELL_SIDE_LENGTH))
          ((LIGHTNING_BEDROCK_DISPLACEMENT_VOLUME
              / (((neighborsList N i).length + 1 : ℕ) : ℚ))
            / (CELL_SIDE_LENGTH * CELL_SIDE_LENGTH))
          (e.cells i) := by
    rw [happ]
    exact (foldl_addRS_cells_not_mem _ _ _ hinot).trans (cells_set_self _ _ _)
  have hcells_j : ∀ j ∈ neighborsList N i,
      (apply_lightning_event_helper N tB bB rand prob e i).1.cells j
        = ((e.cells j).add_rocks
            (((LIGHTNING_BEDROCK_DISPLACEMENT_VOLUME
                / (((neighborsList N i).length + 1 : ℕ) : ℚ))
              / (CELL_SIDE_LENGTH * CELL_SIDE_LENGTH)) / 2)).add_sand
            (((LIGHTNING_BEDROCK_DISPLACEMENT_VOLUME
                / (((neighborsList N i).length + 1 : ℕ) : ℚ))
              / (CELL_SIDE_LENGTH * CELL_SIDE_LENGTH)) / 2) := by
    intro j hj
    rw [happ]
    refine (foldl_addRS_cells_mem _ _ _ hj (neighborsList_nodup N i)).trans ?_
    rw [cells_set_ne _ _ _ (mem_neighborsList_ne hj)]
  refine ⟨?_, ?_, ?_, ?_, ?_, ?_, ?_⟩
  · rw [hcells_i]; exact f1
  · rw [hcells_i]; exact f2
  · rw [hcells_i]; exact f3
  · intro j hj
    constructor
    · rw [hcells_j j hj, Cell.get_rock_height, (add_sand_fields _ _).2.1]
      have := get_rock_add_rocks (e.cells j)
        (((LIGHTNING_BEDROCK_DISPLACEMENT_VOLUME
            / (((neighborsList N i).length + 1 : ℕ) : ℚ))
          / (CELL_SIDE_LENGTH * CELL_SIDE_LENGTH)) / 2)
      rw [Cell.get_rock_height] at this
      rw [this]
    · rw [hcells_j j hj, get_sand_add_sand]
      simp [Cell.get_sand_height, (add_rocks_fields _ _).2.1]
  · rw [happ]
    have hrange : ∀ j ∈ neighborsList N i, j.x < N ∧ j.y < N :=
      fun j hj => mem_neighborsList_lt hx hy hj
    rw [foldl_addRS_heightSum _ _ _ hrange, heightSum_set e _ hx hy, f4]
    have hn0 : (((neighborsList N i).length + 1 : ℕ) : ℚ) ≠ 0 :=
      Nat.cast_ne_zero.mpr (Nat.succ_ne_zero (neighborsList N i).length)
    have hS : (CELL_SIDE_LENGTH : ℚ) ≠ 0 := by
      unfold CELL_SIDE_LENGTH; norm_num
    field_simp
    ring
  · intro h1 h2 h3 h4
    rw [neighborsList_length_interior h1 h2 h3 h4]
    norm_num
  · rw [happ]


/-- C3 (counterexample): at the corner cell `(0,0)` of a 3×3 default world the
strike distributes over `n = 4` cells, giving each a rock gain of
`(V/4)/(2S²) = 1/200` — not the claimed `(V/9)/(2S²) = 1/450`. -/
theorem C3_counterexample :
    (((apply_lightning_event_helper 3 (fun _ => 0) (fun _ => 0) 0 1
        Ecosystem.initE ⟨0, 0⟩).1.cells ⟨0, 0⟩).get_rock_height = 1/200)
    ∧ (LIGHTNING_BEDROCK_DISPLACEMENT_VOLUME / 9)
        / (2 * (CELL_SIDE_LENGTH * CELL_SIDE_LENGTH)) = 1/450
    ∧ ((1 : ℚ)/200 ≠ 1/450) := by
  refine ⟨?_, ?_, ?_⟩ <;> with_unfolding_all decide

/-- C3 (witness for the amended theorem): the amended statement instantiated
at the corner strike of `C3_counterexample`. -/
theorem C3_lightning_strike_witness :
    (((apply_lightning_event_helper 3 (fun _ => 0) (fun _ => 0) 0 1
        Ecosystem.initE ⟨0, 0⟩).1.cells ⟨0, 0⟩).get_bedrock_height
      = (Ecosystem.initE.cells ⟨0, 0⟩).get_bedrock_height
        - LIGHTNING_BEDROCK_DISPLACEMENT_VOLUME / (CELL_SIDE_LENGTH * CELL_SIDE_LENGTH))
    ∧ (((apply_lightning_event_helper 3 (fun _ => 0) (fun _ => 0) 0 1
        Ecosystem.initE ⟨0, 0⟩).1.cells ⟨0, 0⟩).get_rock_height
      = (Ecosystem.initE.cells ⟨0, 0⟩).get_rock_height
        + (LIGHTNING_BEDROCK_DISPLACEMENT_VOLUME
            / (((neighborsList 3 ⟨0, 0⟩).length + 1 : ℕ) : ℚ))
          / (CELL_SIDE_LENGTH * CELL_SIDE_LENGTH) / 2)
    ∧ (((apply_lightning_event_helper 3 (fun _ => 0) (fun _ => 0) 0 1
        Ecosystem.initE ⟨0, 0⟩).1.cells ⟨0, 0⟩).get_sand_height
      = (Ecosystem.initE.cells ⟨0, 0⟩).get_sand_height
        + (LIGHTNING_BEDROCK_DISPLACEMENT_VOLUME
            / (((neighborsList 3 ⟨0, 0⟩).length + 1 : ℕ) : ℚ))
          / (CELL_SIDE_LENGTH * CELL_SIDE_LENGTH) / 2)
    ∧ (∀ j ∈ neighborsList 3 ⟨0, 0⟩,
        (((apply_lightning_event_helper 3 (fun _ => 0) (fun _ => 0) 0 1
            Ecosystem.initE ⟨0, 0⟩).1.cells j).get_rock_height
          = (Ecosystem.initE.cells j).get_rock_height
            + (LIGHTNING_BEDROCK_DISPLACEMENT_VOLUME
                / (((neighborsList 3 ⟨0, 0⟩).length + 1 : ℕ) : ℚ))
              / (CELL_SIDE_LENGTH * CELL_SIDE_LENGTH) / 2)
        ∧ (((apply_lightning_event_helper 3 (fun _ => 0) (fun _ => 0) 0 1
            Ecosystem.initE ⟨0, 0⟩).1.cells j).get_sand_height
          = (Ecosystem.initE.cells j).get_sand_height
            + (LIGHTNING_BEDROCK_DISPLACEMENT_VOLUME
                / (((neighborsList 3 ⟨0, 0⟩).length + 1 : ℕ) : ℚ))
              / (CELL_SIDE_LENGTH * CELL_SIDE_LENGTH) / 2))
    ∧ heightSum 3 (apply_lightning_event_helper 3 (fun _ => 0) (fun _ => 0) 0 1
        Ecosystem.initE ⟨0, 0⟩).1 = heightSum 3 Ecosystem.initE
    ∧ (0 < (0:ℕ) → (0:ℕ) < 3 - 1 → 0 < (0:ℕ) → (0:ℕ) < 3 - 1 →
        (((neighborsList 3 ⟨0, 0⟩).length + 1 : ℕ) : ℚ) = 9)
    ∧ (apply_lightning_event_helper 3 (fun _ => 0) (fun _ => 0) 0 1
        Ecosystem.initE ⟨0, 0⟩).2 = none :=
  C3_lightning_strike 3 (fun _ => 0) (fun _ => 0) 0 1 Ecosystem.initE ⟨0, 0⟩
    (by norm_num) (by norm_num) (by norm_num)
    (by with_unfolding_all decide)

/-! ## Claim C2 -/

/-- C2 (counterexample): the claim says a population left with count 0 is
always removed; but `kill_trees` (used by the lightning kernel) zeroes the
counts and leaves the population present — the repo's own `kill_trees` test
asserts exactly this `Some` state. -/
theorem C2_counterexample :
    (kill_trees (fun _ => 0) cellWithTree).trees = some ⟨0, 0, 0⟩
    ∧ (kill_trees (fun _ => 0) cellWithTree).trees ≠ none := by
  constructor <;> with_unfolding_all decide

/-- C2 (amended): the vegetation-kernel writebacks do maintain the invariant —
`set_in_cell` stores an individualized population exactly when its count is
positive, and the grasses kernel stores a population exactly when the new
coverage is positive — but the lightning kill helpers do not: `kill_trees` and
`kill_bushes` zero the counts while leaving the population present, and
`kill_grasses` leaves the grass coverage itself untouched. -/
theorem C2_zero_population_presence :
    (∀ (t : Trees) (c : Cell),
      ((t.set_in_cell c).trees = none ↔ t.number_of_plants = 0)
      ∧ (∀ t', (t.set_in_cell c).trees = some t' →
          t' = t ∧ 0 < t.number_of_plants))
    ∧ (∀ (b : Bushes) (c : Cell),
      ((b.set_in_cell c).bushes = none ↔ b.number_of_plants = 0)
      ∧ (∀ b', (b.set_in_cell c).bushes = some b' →
          b' = b ∧ 0 < b.number_of_plants))
    ∧ (∀ (p : VegetationParams) (e : Ecosystem) (i : CellIndex) (g : Grasses),
      ((apply_grasses_event p e i).1.cells i).grasses = some g →
        0 < g.coverage_density)
    ∧ (∀ (tB : Trees → ℚ) (c : Cell) (t : Trees), c.trees = some t →
        (kill_trees tB c).trees = some ⟨0, 0, 0⟩)
    ∧ (∀ (bB : Bushes → ℚ) (c : Cell) (b : Bushes), c.bushes = some b →
        (kill_bushes bB c).bushes = some ⟨0, 0, 0⟩)
    ∧ (∀ (c : Cell), (kill_grasses c).grasses = c.grasses) := by
  refine ⟨?_, ?_, ?_, ?_, ?_, ?_⟩
  · intro t c
    constructor
    · unfold Trees.set_in_cell
      split_ifs with h <;> simp <;> omega
    · intro t'
      unfold Trees.set_in_cell
      split_ifs with h <;> simp
      intro ht
      exact ⟨ht.symm, h⟩
  · intro b c
    constructor
    · unfold Bushes.set_in_cell
      split_ifs with h <;> simp <;> omega
    · intro b'
      unfold Bushes.set_in_cell
      split_ifs with h <;> simp
      intro hb
      exact ⟨hb.symm, h⟩
  · intro p e i g hg
    unfold apply_grasses_event at hg
    simp only [cells_set_self] at hg
    rcases ite_eq_iff.mp hg with ⟨hc, hsome⟩ | ⟨_, hnone⟩
    · cases Option.some.inj hsome
      exact hc
    · cases hnone
  · intro tB c t ht
    simp [kill_trees, ht, Cell.add_dead_vegetation]
    rcases hd : ({ c with trees := some ⟨0, 0, 0⟩ } : Cell).dead_vegetation
      with _ | d <;> simp [hd]
  · intro bB c b hbs
    simp [kill_bushes, hbs, Cell.add_dead_vegetation]
    rcases hd : ({ c with bushes := some ⟨0, 0, 0⟩ } : Cell).dead_vegetation
      with _ | d <;> simp [hd]
  · intro c
    rcases hg : c.grasses with _ | g
    · simp [kill_grasses, hg]
    · simp only [kill_grasses, hg]
      rcases hd : c.dead_vegetation with _ | d <;>
        simp [Cell.add_dead_vegetation, hd, hg]

/-- C2 (witness for the amended theorem): concrete instances — the writeback
with a zero-count population removes it, and `kill_trees` on `cellWithTree`
leaves a present zero-count population. -/
theorem C2_zero_population_presence_witness :
    ((Trees.set_in_cell ⟨0, 0, 0⟩ cellWithTree).trees = none ↔
      (0 : ℕ) = 0)
    ∧ ((kill_trees (fun _ => 0) cellWithTree).trees = some ⟨0, 0, 0⟩) :=
  ⟨(C2_zero_population_presence.1 ⟨0, 0, 0⟩ cellWithTree).1,
    C2_zero_population_presence.2.2.2.1 (fun _ => 0) cellWithTree ⟨1, 30, 10⟩
      (by with_unfolding_all decide)⟩

/-! ## Claim C6 -/

/-- C6 (counterexample): at the default ecosystem the tree population has all
12 monthly viabilities negative (the four worst sum to −4), so the claim's
stress — divide by the number of viabilities actually taken, here
min 4 12 = 4 — is −1, but the code divides by the count of ALL negative
viabilities, giving −1/3. -/
theorem C6_counterexample :
    (compute_vigor_and_stress treesParams Ecosystem.initE ⟨0, 0⟩).2 = -(1/3)
    ∧ (((((List.finRange 12).map
          (compute_viability treesParams Ecosystem.initE ⟨0, 0⟩)).filter
          fun v => decide (v < 0)).insertionSort (· ≤ ·)).take 4).sum
        / ((min 4 (((List.finRange 12).map
            (compute_viability treesParams Ecosystem.initE ⟨0, 0⟩)).filter
            fun v => decide (v < 0)).length : ℕ) : ℚ) = -1
    ∧ (-(1/3) : ℚ) ≠ -1 := by
  refine ⟨?_, ?_, ?_⟩ <;> with_unfolding_all decide

/-- C6 (amended): vigor is the mean viability over the eight months (indices
3–10) whose base-table temperature exceeds 5 °C; stress is 0 when no monthly
viability is negative, and otherwise is the sum of the (up to) four smallest
negative viabilities divided by the number of ALL negative viabilities — not
by the number of viabilities taken. -/
theorem C6_vigor_and_stress (p : VegetationParams) (e : Ecosystem)
    (i : CellIndex) :
    (compute_vigor_and_stress p e i).1
      = (compute_viability p e i 3 + compute_viability p e i 4
          + compute_viability p e i 5 + compute_viability p e i 6
          + compute_viability p e i 7 + compute_viability p e i 8
          + compute_viability p e i 9 + compute_viability p e i 10) / 8
    ∧ ((((List.finRange 12).map (compute_viability p e i)).filter
          fun v => decide (v < 0)) = [] →
        (compute_vigor_and_stress p e i).2 = 0)
    ∧ ∃ four rest : List ℚ,
        (((List.finRange 12).map (compute_viability p e i)).filter
            fun v => decide (v < 0)).Perm (four ++ rest)
        ∧ four.length = min 4 (((List.finRange 12).map
            (compute_viability p e i)).filter fun v => decide (v < 0)).length
        ∧ (∀ a ∈ four, ∀ b ∈ rest, a ≤ b)
        ∧ ((((List.finRange 12).map (compute_viability p e i)).filter
              fun v => decide (v < 0)) ≠ [] →
            (compute_vigor_and_stress p e i).2
              = four.sum / ((((List.finRange 12).map
                  (compute_viability p e i)).filter
                  fun v => decide (v < 0)).length : ℚ)) := by
  have hfilter : ((List.finRange 12).filter
      fun m => decide ((5:ℚ) < AVERAGE_MONTHLY_TEMPERATURES m))
      = ([3, 4, 5, 6, 7, 8, 9, 10] : List (Fin 12)) := by
    with_unfolding_all decide
  refine ⟨?_, ?_, ?_⟩
  · simp only [compute_vigor_and_stress]
    rw [hfilter]
    simp only [List.map_cons, List.map_nil, List.sum_cons, List.sum_nil,
      List.length_cons, List.length_nil]
    norm_num
    ring
  · intro h
    simp only [compute_vigor_and_stress, h]
    simp
  · refine ⟨((((List.finRange 12).map (compute_viability p e i)).filter
        fun v => decide (v < 0)).insertionSort (· ≤ ·)).take 4,
      ((((List.finRange 12).map (compute_viability p e i)).filter
        fun v => decide (v < 0)).insertionSort (· ≤ ·)).drop 4,
      ?_, ?_, ?_, ?_⟩
    · rw [List.take_append_drop]
      exact (List.perm_insertionSort _ _).symm
    · rw [List.length_take, List.length_insertionSort]
    · intro a ha b hb
      exact (List.sorted_insertionSort (· ≤ ·) _).rel_of_mem_take_of_mem_drop
        ha hb
    · intro h
      have hne : (((List.finRange 12).map (compute_viability p e i)).filter
          fun v => decide (v < 0)).isEmpty = false := by
        simpa [List.isEmpty_iff] using h
      simp only [compute_vigor_and_stress, hne]
      simp

/-- C6 (witness for the amended theorem): the concrete default ecosystem has a
nonempty negative-viability list (so the stress hypothesis is satisfiable),
and the vigor equation instantiates there. -/
theorem C6_vigor_and_stress_witness :
    ((((List.finRange 12).map
        (compute_viability treesParams Ecosystem.initE ⟨0, 0⟩)).filter
        fun v => decide (v < 0)) ≠ [])
    ∧ (compute_vigor_and_stress treesParams Ecosystem.initE ⟨0, 0⟩).1
      = (compute_viability treesParams Ecosystem.initE ⟨0, 0⟩ 3
          + compute_viability treesParams Ecosystem.initE ⟨0, 0⟩ 4
          + compute_viability treesParams Ecosystem.initE ⟨0, 0⟩ 5
          + compute_viability treesParams Ecosystem.initE ⟨0, 0⟩ 6
          + compute_viability treesParams Ecosystem.initE ⟨0, 0⟩ 7
          + compute_viability treesParams Ecosystem.initE ⟨0, 0⟩ 8
          + compute_viability treesParams Ecosystem.initE ⟨0, 0⟩ 9
          + compute_viability treesParams Ecosystem.initE ⟨0, 0⟩ 10) / 8 :=
  ⟨by with_unfolding_all decide,
    (C6_vigor_and_stress treesParams Ecosystem.initE ⟨0, 0⟩).1⟩

/-! ## Claim C7 -/

/-- C7 (counterexample): the sub-viability piecewise function is NOT continuous
at `limit_min`: with the red-maple temperature parameters (−10, 0, 35, 38) its
value everywhere strictly below −10 is −1 while its value at −10 is 0, and the
same jump shows up through `compute_temperature_viability` on the two cold
worlds whose January temperatures are −11 and exactly −10. -/
theorem C7_counterexample :
    viabilityPiecewise (-10) 0 35 38 (-11) = -1
    ∧ viabilityPiecewise (-10) 0 35 38 (-10) = 0
    ∧ compute_temperature_viability treesParams ecoColdBelow ⟨0, 0⟩ 0 = -1
    ∧ compute_temperature_viability treesParams ecoColdKnot ⟨0, 0⟩ 0 = 0
    ∧ (-1 : ℚ) ≠ 0 := by
  refine ⟨?_, ?_, ?_, ?_, ?_⟩ <;> with_unfolding_all decide

/-- C7 (amended): for parameters `limit_min < ideal_min ≤ ideal_max <
limit_max` the piecewise sub-viability is −1 strictly below `limit_min`, ramps
linearly from 0 at `limit_min` up towards 1 on `[limit_min, ideal_min)`, is 1
on `[ideal_min, ideal_max]`, ramps linearly down on `(ideal_max, limit_max]`
reaching 0 at `limit_max`, and is −1 strictly above `limit_max`; so it is
continuous at the two ideal knots (both ramp formulas evaluate to 1 there) but
has a jump of size 1 at each limit knot, where its value is 0 while the
adjacent plateau is −1. -/
theorem C7_viability_plateaus_ramps_and_jumps (lmin imin imax lmax : ℚ)
    (h1 : lmin < imin) (h2 : imin ≤ imax) (h3 : imax < lmax) :
    (∀ v, v < lmin → viabilityPiecewise lmin imin imax lmax v = -1)
    ∧ viabilityPiecewise lmin imin imax lmax lmin = 0
    ∧ (∀ v, lmin ≤ v → v < imin →
        viabilityPiecewise lmin imin imax lmax v = (v - lmin) / (imin - lmin))
    ∧ (∀ v, imin ≤ v → v ≤ imax →
        viabilityPiecewise lmin imin imax lmax v = 1)
    ∧ (∀ v, imax < v → v ≤ lmax →
        viabilityPiecewise lmin imin imax lmax v = (v - lmax) / (imax - lmax))
    ∧ viabilityPiecewise lmin imin imax lmax lmax = 0
    ∧ (∀ v, lmax < v → viabilityPiecewise lmin imin imax lmax v = -1) := by
  refine ⟨?_, ?_, ?_, ?_, ?_, ?_, ?_⟩
  · intro v hv
    unfold viabilityPiecewise
    rw [if_pos hv]
  · unfold viabilityPiecewise
    rw [if_neg (lt_irrefl lmin), if_pos h1]
    simp
  · intro v hv1 hv2
    unfold viabilityPiecewise
    rw [if_neg (not_lt.mpr hv1), if_pos hv2]
  · intro v hv1 hv2
    unfold viabilityPiecewise
    rw [if_neg (by linarith), if_neg (not_lt.mpr hv1), if_pos hv2]
  · intro v hv1 hv2
    unfold viabilityPiecewise
    rw [if_neg (by linarith), if_neg (by linarith), if_neg (not_le.mpr hv1),
      if_pos hv2]
  · unfold viabilityPiecewise
    rw [if_neg (by linarith), if_neg (by linarith), if_neg (not_le.mpr h3),
      if_pos le_rfl]
    simp
  · intro v hv
    unfold viabilityPiecewise
    rw [if_neg (by linarith), if_neg (by linarith), if_neg (by linarith),
      if_neg (not_le.mpr hv)]

/-- C7 (witness for the amended theorem): the red-maple temperature parameters
satisfy the knot ordering, and the theorem instantiates there — value 0 at the
lower limit knot and 1 in the middle of the ideal plateau. -/
theorem C7_viability_plateaus_ramps_and_jumps_witness :
    ((-10 : ℚ) < 0 ∧ (0 : ℚ) ≤ 35 ∧ (35 : ℚ) < 38)
    ∧ viabilityPiecewise (-10) 0 35 38 (-10) = 0
    ∧ viabilityPiecewise (-10) 0 35 38 20 = 1 :=
  ⟨⟨by norm_num, by norm_num, by norm_num⟩,
    (C7_viability_plateaus_ramps_and_jumps (-10) 0 35 38 (by norm_num)
      (by norm_num) (by norm_num)).2.1,
    (C7_viability_plateaus_ramps_and_jumps (-10) 0 35 38 (by norm_num)
      (by norm_num) (by norm_num)).2.2.2.1 20 (by norm_num) (by norm_num)⟩

/-! ## Claim C8 -/

/-- C8 (code bug): `get_bounce_probability`'s own contract (and the claim) is
that `f_S` and `f_V` are evaluated at the landing cell, but the kernel passes
the ORIGIN index.  On `ecoWind` (origin `(1,1)` with exactly the carrying
capacity of sand, target `(3,1)` with plenty of sand, full grass cover at
both): after the lift the origin has no sand, so the origin-evaluated
probability is `0.4 + 0 = 2/5 < u = 1/2` and the kernel bounces
(`some (Wind, (3,1))`); at the target, which holds sand, the probability the
claim prescribes is `0.6 + 0 = 3/5 ≥ 1/2`, which would have deposited
(`none`).  `ecoWindMid` is the mid-saltation state in which the kernel makes
the decision. -/
theorem C8_wind_bounce_origin_not_target :
    (apply_wind_event 5 (2, 0) 0 (1/2) 0 (fun _ => 0) (fun _ => 0)
        ecoWind ⟨1, 1⟩).2 = some (Events.Wind, ⟨3, 1⟩)
    ∧ windSaltationTarget 5 (2, 0) ⟨1, 1⟩ = ⟨3, 1⟩
    ∧ get_bounce_probability (fun _ => 0) (fun _ => 0) ecoWindMid ⟨1, 1⟩ 0 = 2/5
    ∧ get_bounce_probability (fun _ => 0) (fun _ => 0) ecoWindMid ⟨3, 1⟩ 0 = 3/5
    ∧ ((2/5 : ℚ) < 1/2) ∧ ¬((3/5 : ℚ) < 1/2) := by
  refine ⟨?_, ?_, ?_, ?_, ?_, ?_⟩ <;> with_unfolding_all decide

/-! ## Claim C10 -/

/-- C10: a single wind kernel invocation (saltation plus reptation) conserves
the grid-wide sand sum, for every origin cell inside the grid and all wind
parameters: the lifted `min(CARRYING_CAPACITY, origin sand)` is removed at the
origin and added in full at the toroidally wrapped target (which lies inside
the grid), and reptation removes the reptation height from the target and adds
exactly that amount across its one or two steepest descending neighbors. -/
theorem C10_wind_sand_conservation (N : ℕ) (off : ℤ × ℤ)
    (ws u reptShare : ℚ) (tD : Trees → ℚ) (bD : Bushes → ℚ)
    (e : Ecosystem) (i : CellIndex) (hN : 0 < N) (hx : i.x < N)
    (hy : i.y < N) :
    sandSum N (apply_wind_event N off ws u reptShare tD bD e i).1
      = sandSum N e
    ∧ (windSaltationTarget N off i).x < N
    ∧ (windSaltationTarget N off i).y < N := by
  obtain ⟨htx, hty⟩ := windSaltationTarget_lt N off i hN
  refine ⟨?_, htx, hty⟩
  unfold apply_wind_event
  simp only []
  rw [sandSum_perform_reptation N reptShare _ _ _ htx hty
    (by rw [cells_set_self]; exact sand_isSome_add_sand _ _)]
  rw [sandSum_set _ _ htx hty, sandSum_set _ _ hx hy,
    get_sand_add_sand, get_sand_remove_sand_lift]
  ring

/-- C10 (witness): the conservation theorem instantiated on a concrete 2×2
world. -/
theorem C10_wind_sand_conservation_witness :
    0 < 2
    ∧ (0 : ℕ) < 2
    ∧ sandSum 2 (apply_wind_event 2 (1, 1) 0 0 0 (fun _ => 0) (fun _ => 0)
        Ecosystem.initE ⟨0, 0⟩).1 = sandSum 2 Ecosystem.initE :=
  ⟨by decide, by decide,
    (C10_wind_sand_conservation 2 (1, 1) 0 0 0 (fun _ => 0) (fun _ => 0)
      Ecosystem.initE ⟨0, 0⟩ (by decide) (by decide) (by decide)).1⟩

/-! ## Claim C9 -/

/-- C9 (counterexample): the recomputed illumination is NOT the ray trace of
the cell itself.  On the 4×4 plateau world the ray from cell `(1,0)` toward
the single above-horizon sun sample is blocked by the plateau (0 sunlit
hours), while the ray from cell `(0,1)` is clear (3/4); yet
`recompute_sunlight` stores 3/4 at `(1,0)` — the trace of the transposed cell
`(0,1)`.  Moreover the edge strips are never written: the two flat 2×2 worlds
`ecoEdgeA`/`ecoEdgeB` have identical heightfields but different cached values,
and recompute leaves 5 ≠ 7 at the edge cell `(1,1)`, so the result is not a
pure function of the heightfield there. -/
theorem C9_counterexample :
    ray_trace_illumination 4 (heightsOf ecoPlateau) sunTableCex ⟨1, 0⟩ 0 = 0
    ∧ ray_trace_illumination 4 (heightsOf ecoPlateau) sunTableCex ⟨0, 1⟩ 0
        = 3/4
    ∧ ((recompute_sunlight 4 sunTableCex ecoPlateau).cells
        ⟨1, 0⟩).hours_of_sunlight 0 = 3/4
    ∧ ((3 : ℚ)/4) ≠ 0
    ∧ heightsOf ecoEdgeA = heightsOf ecoEdgeB
    ∧ ((recompute_sunlight 2 sunTableCex ecoEdgeA).cells
        ⟨1, 1⟩).hours_of_sunlight 0 = 5
    ∧ ((recompute_sunlight 2 sunTableCex ecoEdgeB).cells
        ⟨1, 1⟩).hours_of_sunlight 0 = 7
    ∧ (5 : ℚ) ≠ 7 := by
  refine ⟨?_, ?_, ?_, ?_, ?_, ?_, ?_, ?_⟩
  · with_unfolding_all decide
  · with_unfolding_all decide
  · with_unfolding_all decide
  · with_unfolding_all decide
  · with_unfolding_all rfl
  · with_unfolding_all decide
  · with_unfolding_all decide
  · with_unfolding_all decide

/-- C9 (amended): the recomputed illumination is deterministic and ray-traced
only on the interior: for two ecosystems with the same heightfield every cell
with both coordinates below `N−1` receives the same hours in both runs, equal
to the ray trace of its TRANSPOSED index `(y, x)`, and each monthly value is a
count of sunlit hours among 24 times `PERCENT_SUNNY_DAYS`, hence in
`[0, 24·PERCENT_SUNNY_DAYS]`; but every cell on the strips `x = N−1` or
`y = N−1` keeps its prior cached value, so on those strips the result is not a
function of the heightfield at all. -/
theorem C9_sunlight_recompute (N : ℕ) (sun : Fin 12 → ℕ → SunSample)
    (e₁ e₂ : Ecosystem) (heq : heightsOf e₁ = heightsOf e₂) :
    (∀ i : CellIndex, i.x < N - 1 → i.y < N - 1 →
      ((recompute_sunlight N sun e₁).cells i).hours_of_sunlight
          = ((recompute_sunlight N sun e₂).cells i).hours_of_sunlight
        ∧ ((recompute_sunlight N sun e₁).cells i).hours_of_sunlight
          = compute_hours_of_sunlight_for_cell N (heightsOf e₁) sun ⟨i.y, i.x⟩
        ∧ ∀ month,
            0 ≤ ((recompute_sunlight N sun e₁).cells i).hours_of_sunlight month
            ∧ ((recompute_sunlight N sun e₁).cells i).hours_of_sunlight month
              ≤ 24 * PERCENT_SUNNY_DAYS)
    ∧ (∀ i : CellIndex, ¬(i.x < N - 1 ∧ i.y < N - 1) →
        ((recompute_sunlight N sun e₁).cells i).hours_of_sunlight
          = (e₁.cells i).hours_of_sunlight) := by
  have hcell : ∀ (e : Ecosystem) (i : CellIndex), i.x < N - 1 → i.y < N - 1 →
      ((recompute_sunlight N sun e).cells i).hours_of_sunlight
        = compute_hours_of_sunlight_for_cell N (heightsOf e) sun ⟨i.y, i.x⟩ := by
    intro e i hx hy
    simp only [recompute_sunlight]
    rw [if_pos ⟨hx, hy⟩]
  have hbound : ∀ (hts : CellIndex → ℚ) (j : CellIndex) (m : Fin 12),
      0 ≤ ray_trace_illumination N hts sun j m
      ∧ ray_trace_illumination N hts sun j m ≤ 24 * PERCENT_SUNNY_DAYS := by
    intro hts j m
    simp only [ray_trace_illumination]
    constructor
    · exact mul_nonneg (Nat.cast_nonneg _)
        (by unfold PERCENT_SUNNY_DAYS; norm_num)
    · refine mul_le_mul_of_nonneg_right ?_
        (by unfold PERCENT_SUNNY_DAYS; norm_num)
      exact_mod_cast le_trans (List.length_filter_le _ (List.range 24))
        (le_of_eq (List.length_range 24))
  refine ⟨fun i hx hy => ⟨?_, hcell e₁ i hx hy, ?_⟩, fun i hni => ?_⟩
  · rw [hcell e₁ i hx hy, hcell e₂ i hx hy, heq]
  · intro month
    rw [hcell e₁ i hx hy]
    exact hbound (heightsOf e₁) ⟨i.y, i.x⟩ month
  · simp only [recompute_sunlight]
    rw [if_neg hni]

/-- C9 (witness for the amended theorem): the two flat edge worlds have equal
heightfields; the theorem instantiated there gives agreement at the interior
cell `(0,0)` of the 3×3 grid and preservation of the cached value at the edge
cell `(2,2)`. -/
theorem C9_sunlight_recompute_witness :
    heightsOf ecoEdgeA = heightsOf ecoEdgeB
    ∧ ((recompute_sunlight 3 sunTableCex ecoEdgeA).cells
        ⟨0, 0⟩).hours_of_sunlight
      = ((recompute_sunlight 3 sunTableCex ecoEdgeB).cells
        ⟨0, 0⟩).hours_of_sunlight
    ∧ ((recompute_sunlight 3 sunTableCex ecoEdgeA).cells
        ⟨2, 2⟩).hours_of_sunlight = (ecoEdgeA.cells ⟨2, 2⟩).hours_of_sunlight :=
  ⟨rfl,
    ((C9_sunlight_recompute 3 sunTableCex ecoEdgeA ecoEdgeB rfl).1
      ⟨0, 0⟩ (by decide) (by decide)).1,
    (C9_sunlight_recompute 3 sunTableCex ecoEdgeA ecoEdgeB rfl).2
      ⟨2, 2⟩ (by decide)⟩

end RustyVeg
